import Mathlib

/-!
Verification of the Atlastizen Universal Time (AUT) solar core from
src/index.tsx of the Atlastizen-UT-V4 repository.

The embedding below follows the source file closely:
- the ray-window classifier (source lines 614-648) is embedded over the
  rationals, with JavaScript numbers that may be non-finite modelled by an
  explicit sum type JSNum, since the classifier branches on Number.isFinite;
- the solar pipeline (solarParamsNOAA, solarNoonUTCMinutes,
  sunriseSunsetUTCMinutes, apparentSolarMinutesUTC, computeAUTEquilux,
  computeAUT; source lines 204-465) is embedded over the reals.
  JavaScript Date values are embedded by the two numbers the code extracts
  from them: the UTC day-of-year n (dayOfYear) and the minutes since the
  current UTC midnight tUTC (minutesLocalToUTCMinutes); the yesterday and
  tomorrow UTC anchors become n - 1 and n + 1, and a Date produced by
  utcMinutesToLocalDate(m, base) is embedded as minutes relative to the
  UTC midnight of the current day, 1440 * dayOffset + m.
  The display-only string field autClock is omitted from the result record.
The JavaScript remainder operator, which truncates toward zero, is embedded
explicitly (qRem over the rationals, jsRem over the reals).
-/

namespace AUT

/-! ## Ray window classifier (source lines 614-648), over the rationals -/

/-- Truncation toward zero on the rationals, as the JavaScript remainder
operator requires. -/
def qtrunc (x : ℚ) : ℤ := if 0 ≤ x then ⌊x⌋ else ⌈x⌉

/-- JavaScript remainder a % b on the rationals: a - b * trunc (a / b). -/
def qRem (a b : ℚ) : ℚ := a - b * (qtrunc (a / b) : ℚ)

/-- One entry of the RAY_WINDOWS catalog.  The source field named end is a
Lean keyword and is rendered endHour. -/
structure RayWindow where
  name : String
  start : ℚ
  endHour : ℚ
  color : String
  labelColor : Option String := none

/-- Source lines 615-628: twelve windows across 24 AUT hours, 2h each. -/
def RAY_WINDOWS : List RayWindow :=
  [ { name := "Red", start := 0, endHour := 2, color := "#ef4444" },
    { name := "Orange", start := 2, endHour := 4, color := "#f97316" },
    { name := "Yellow", start := 4, endHour := 6, color := "#facc15", labelColor := some "#f8fafc" },
    { name := "Green", start := 6, endHour := 8, color := "#22c55e" },
    { name := "Teal", start := 8, endHour := 10, color := "#14b8a6" },
    { name := "Blue", start := 10, endHour := 12, color := "#3b82f6" },
    { name := "Indigo", start := 12, endHour := 14, color := "#6366f1" },
    { name := "Violet", start := 14, endHour := 16, color := "#8b5cf6" },
    { name := "Magenta", start := 16, endHour := 18, color := "#d946ef" },
    { name := "Omni", start := 18, endHour := 20, color := "#fafafa", labelColor := some "#f8fafc" },
    { name := "Crystalline-Carbon", start := 20, endHour := 22, color := "#a5f3fc", labelColor := some "#f8fafc" },
    { name := "Infinite of ALL", start := 22, endHour := 24, color := "#7dd3fc", labelColor := some "#f8fafc" } ]

/-- A JavaScript number argument to rayIndexForAUT: either a finite value or
one of the non-finite values NaN and plus or minus Infinity. -/
inductive JSNum where
  | finite (q : ℚ)
  | nan
  | posInf
  | negInf

/-- Number.isFinite on a JSNum. -/
def JSNum.isFinite : JSNum → Bool
  | .finite _ => true
  | _ => false

/-- The local constant eps = 1e-9 of rayIndexForAUT (source line 637). -/
def RAY_EPS : ℚ := 1 / 1000000000

/-- The per-window test of the scan loop in rayIndexForAUT (source lines
641-646): window bounds are both shifted down by eps and the wrapped hour
must satisfy start - eps <= h < end - eps. -/
def rayMatch (h : ℚ) (r : RayWindow) : Prop :=
  r.start - RAY_EPS ≤ h ∧ h < r.endHour - RAY_EPS

instance (h : ℚ) (r : RayWindow) : Decidable (rayMatch h r) := by
  unfold rayMatch; infer_instance

/-- The for-loop of rayIndexForAUT: index of the first window matching h. -/
def firstMatchIdx (h : ℚ) : List RayWindow → Option ℕ
  | [] => none
  | r :: rs => if rayMatch h r then some 0 else (firstMatchIdx h rs).map (· + 1)

/-- Source lines 636-648: coerce non-finite input to 0, wrap into [0, 24)
with the double-remainder idiom, scan the windows in order and return the
first match, falling back to index 0. -/
def rayIndexForAUT (hours : JSNum) : ℕ :=
  let hRaw : ℚ := match hours with | .finite q => q | _ => 0
  let h : ℚ := qRem (qRem hRaw 24 + 24) 24
  (firstMatchIdx h RAY_WINDOWS).getD 0

instance : Inhabited RayWindow := ⟨⟨"", 0, 0, "", none⟩⟩

/-! ## Solar pipeline (source lines 204-465), over the reals -/

noncomputable section

/-- Source line 205: degrees to radians factor. -/
def DEG : ℝ := Real.pi / 180

/-- Source line 206: radians to degrees factor. -/
def RAD : ℝ := 180 / Real.pi

/-- Return record of solarParamsNOAA. -/
structure SolarParams where
  declDeg : ℝ
  EoT : ℝ

/-- The seven-term Fourier series inside the asin of solarParamsNOAA
(source lines 217-221). -/
def declSeries (gamma : ℝ) : ℝ :=
  0.006918 - 0.399912 * Real.cos gamma + 0.070257 * Real.sin gamma -
    0.006758 * Real.cos (2 * gamma) + 0.000907 * Real.sin (2 * gamma) -
    0.002697 * Real.cos (3 * gamma) + 0.00148 * Real.sin (3 * gamma)

/-- The five-term Fourier series of the equation of time (source lines
222-228), before the 229.18 scale factor. -/
def eotSeries (gamma : ℝ) : ℝ :=
  0.000075 + 0.001868 * Real.cos gamma - 0.032077 * Real.sin gamma -
    0.014615 * Real.cos (2 * gamma) - 0.040849 * Real.sin (2 * gamma)

/-- Source lines 215-230: NOAA style fractional year gamma with derived
declination (degrees) and equation of time (minutes), as a function of the
day of year n. -/
def solarParamsNOAA (n : ℝ) : SolarParams :=
  let gamma := 2 * Real.pi * (n - 1) / 365
  let declRad := Real.arcsin (declSeries gamma)
  { declDeg := declRad * RAD, EoT := 229.18 * eotSeries gamma }

/-- Source lines 232-234: solar noon in minutes from 00:00 UTC. -/
def solarNoonUTCMinutes (longitudeDeg EoT : ℝ) : ℝ :=
  720 - 4 * longitudeDeg - EoT

/-- The SunWindow union of the source (lines 20-36): a tagged variant with
polar night, polar day, and normal sunrise/sunset payloads. -/
inductive SunWindow where
  | polar_night (noonUTC EoT declDeg : ℝ)
  | polar_day (noonUTC EoT declDeg : ℝ)
  | normal (sunriseUTC sunsetUTC noonUTC EoT declDeg : ℝ)

/-- The mode discriminator string of a SunWindow, as in the source. -/
def SunWindow.mode : SunWindow → String
  | .polar_night _ _ _ => "polar_night"
  | .polar_day _ _ _ => "polar_day"
  | .normal _ _ _ _ _ => "normal"

/-- The sunriseUTC field of a normal SunWindow (0 on the polar variants,
which carry no such field). -/
def SunWindow.sunriseUTC : SunWindow → ℝ
  | .normal r _ _ _ _ => r
  | _ => 0

/-- The sunsetUTC field of a normal SunWindow (0 on the polar variants). -/
def SunWindow.sunsetUTC : SunWindow → ℝ
  | .normal _ s _ _ _ => s
  | _ => 0

/-- The noonUTC field of a SunWindow. -/
def SunWindow.noonUTC : SunWindow → ℝ
  | .polar_night noonUTC _ _ => noonUTC
  | .polar_day noonUTC _ _ => noonUTC
  | .normal _ _ noonUTC _ _ => noonUTC

/-- The EoT field of a SunWindow. -/
def SunWindow.EoT : SunWindow → ℝ
  | .polar_night _ EoT _ => EoT
  | .polar_day _ EoT _ => EoT
  | .normal _ _ _ EoT _ => EoT

/-- The declDeg field of a SunWindow. -/
def SunWindow.declDeg : SunWindow → ℝ
  | .polar_night _ _ declDeg => declDeg
  | .polar_day _ _ declDeg => declDeg
  | .normal _ _ _ _ declDeg => declDeg

/-- The hour angle cosine x of sunriseSunsetUTCMinutes (source lines
243-248), with alpha = 0.833 degrees for the upper limb plus refraction. -/
def hourAngleCosine (latDeg declDeg : ℝ) : ℝ :=
  (Real.sin (-(0.833) * DEG) - Real.sin (latDeg * DEG) * Real.sin (declDeg * DEG)) /
    (Real.cos (latDeg * DEG) * Real.cos (declDeg * DEG))

/-- The hour angle cosine exactly as the specification words it, with the
constant minus 0.8333 degrees in place of the alpha = 0.833 the source
defines at line 243.  This definition follows the words of the claim, not
the source, and exists only to be compared with hourAngleCosine. -/
def hourAngleCosineClaim (latDeg declDeg : ℝ) : ℝ :=
  (Real.sin (-(0.8333) * DEG) - Real.sin (latDeg * DEG) * Real.sin (declDeg * DEG)) /
    (Real.cos (latDeg * DEG) * Real.cos (declDeg * DEG))

/-- Source lines 237-263: sunrise/sunset/noon plus a mode flag for polar
conditions.  The source extracts the day of year n from its Date argument;
here n is the argument. -/
def sunriseSunsetUTCMinutes (n latDeg lonDeg : ℝ) : SunWindow :=
  let p := solarParamsNOAA n
  let noonUTC := solarNoonUTCMinutes lonDeg p.EoT
  let x := hourAngleCosine latDeg p.declDeg
  if x > 1 then .polar_night noonUTC p.EoT p.declDeg
  else if x < -1 then .polar_day noonUTC p.EoT p.declDeg
  else
    let h0 := Real.arccos (min 1 (max (-1) x)) * RAD
    .normal (noonUTC - 4 * h0) (noonUTC + 4 * h0) noonUTC p.EoT p.declDeg

/-- Truncation toward zero on the reals, for the JavaScript remainder. -/
def rtrunc (x : ℝ) : ℤ := if 0 ≤ x then ⌊x⌋ else ⌈x⌉

/-- JavaScript remainder a % b on the reals: a - b * trunc (a / b). -/
def jsRem (a b : ℝ) : ℝ := a - b * (rtrunc (a / b) : ℝ)

/-- Source lines 294-297: apparent solar time minutes from midnight,
normalized into [0, 1440) by the double-remainder idiom. -/
def apparentSolarMinutesUTC (tUTCmin lonDeg EoT : ℝ) : ℝ :=
  let ast := tUTCmin + 4 * lonDeg + EoT
  jsRem (jsRem ast 1440 + 1440) 1440

/-- The AUTResult record of the source (lines 38-60).  Date valued fields
are embedded as minutes relative to the UTC midnight of the current day;
the display-only autClock string is omitted; noonUTC is present only on the
normal variant, hence an Option. -/
structure AUTResult where
  autHours : ℝ
  sunriseLocalMin : ℝ
  sunsetLocalMin : ℝ
  nextSunriseLocalMin : ℝ
  segmentLabel : String
  progress : ℝ
  segLenMin : ℝ
  dayLenMin : ℝ
  nightLenMin : ℝ
  mode : String
  noonUTC : Option ℝ

/-- Embedding of utcMinutesToLocalDate (source lines 284-291): the produced
Date, as minutes relative to the UTC midnight of the current day, where
baseDayOffset is -1, 0 or 1 for the yesterday/today/tomorrow anchors. -/
def utcMinutesToLocalMin (utcMinutes : ℝ) (baseDayOffset : ℤ) : ℝ :=
  1440 * (baseDayOffset : ℝ) + utcMinutes

/-- Source lines 300-359: equilux fallback, splitting the day into two
equal halves around solar noon using apparent solar time.  The source
computes tUTC from its Date argument; here tUTC is the argument.  The local
variable named like a quotient of lengths in the source is rendered frac. -/
def computeAUTEquilux (tUTC lonDeg EoT noonUTC : ℝ) : AUTResult :=
  let astMin := apparentSolarMinutesUTC tUTC lonDeg EoT
  let dayStart : ℝ := 360
  let dayEnd : ℝ := 1080
  let sunriseVirtualUTC := noonUTC - 360
  let sunsetVirtualUTC := noonUTC + 360
  if dayStart ≤ astMin ∧ astMin < dayEnd then
    let frac := (astMin - dayStart) / 720
    { autHours := 12 * frac
      sunriseLocalMin := utcMinutesToLocalMin sunriseVirtualUTC 0
      sunsetLocalMin := utcMinutesToLocalMin sunsetVirtualUTC 0
      nextSunriseLocalMin := utcMinutesToLocalMin sunriseVirtualUTC 1
      segmentLabel := "Daylight (Lux, Equilux)"
      progress := frac
      segLenMin := 720
      dayLenMin := 720
      nightLenMin := 720
      mode := "equilux"
      noonUTC := none }
  else
    let delta := if dayEnd ≤ astMin then astMin - dayEnd else astMin + (1440 - dayEnd)
    let frac := delta / 720
    { autHours := 12 + 12 * frac
      sunriseLocalMin := utcMinutesToLocalMin sunriseVirtualUTC 0
      sunsetLocalMin := utcMinutesToLocalMin sunsetVirtualUTC 0
      nextSunriseLocalMin := utcMinutesToLocalMin sunriseVirtualUTC 1
      segmentLabel := "Night (Umbra, Equilux)"
      progress := frac
      segLenMin := 720
      dayLenMin := 720
      nightLenMin := 720
      mode := "equilux"
      noonUTC := none }

/-- The normal sunrise/sunset flow of computeAUT (source lines 397-465),
factored out of the match on the three sun windows.  The helper lambdas
spanAfter and spanBefore of the source are inlined.  The overrides of
sunsetLocal and nextSunriseLocal in the pre-sunrise branch (source lines
444-445) use the yesterday and today anchors. -/
def computeAUTNormalFlow (tUTC sunriseToday sunsetToday noonUTC sunsetYest sunriseTom : ℝ) :
    AUTResult :=
  let dayLenMin := max 0 (sunsetToday - sunriseToday)
  let nightLenMin := max 0 (sunriseTom + 1440 - sunsetToday)
  if sunriseToday ≤ tUTC ∧ tUTC < sunsetToday then
    let dayLen := sunsetToday - sunriseToday
    let frac := (tUTC - sunriseToday) / dayLen
    { autHours := 12 * frac
      sunriseLocalMin := utcMinutesToLocalMin sunriseToday 0
      sunsetLocalMin := utcMinutesToLocalMin sunsetToday 0
      nextSunriseLocalMin := utcMinutesToLocalMin sunriseTom 1
      segmentLabel := "Daylight (Lux)"
      progress := frac
      segLenMin := dayLen
      dayLenMin := dayLenMin
      nightLenMin := nightLenMin
      mode := "normal"
      noonUTC := some noonUTC }
  else if sunsetToday ≤ tUTC then
    let nightLen := sunriseTom + 1440 - sunsetToday
    let frac := (tUTC - sunsetToday) / nightLen
    { autHours := 12 + 12 * frac
      sunriseLocalMin := utcMinutesToLocalMin sunriseToday 0
      sunsetLocalMin := utcMinutesToLocalMin sunsetToday 0
      nextSunriseLocalMin := utcMinutesToLocalMin sunriseTom 1
      segmentLabel := "Night (Umbra)"
      progress := frac
      segLenMin := nightLen
      dayLenMin := dayLenMin
      nightLenMin := nightLenMin
      mode := "normal"
      noonUTC := some noonUTC }
  else
    let tCont := tUTC + 1440
    let nightLen := sunriseToday - sunsetYest + 1440
    let frac := (tCont - (sunsetYest + 1440)) / nightLen
    { autHours := 12 + 12 * frac
      sunriseLocalMin := utcMinutesToLocalMin sunriseToday 0
      sunsetLocalMin := utcMinutesToLocalMin sunsetYest (-1)
      nextSunriseLocalMin := utcMinutesToLocalMin sunriseToday 0
      segmentLabel := "Night (Umbra)"
      progress := frac
      segLenMin := nightLen
      dayLenMin := dayLenMin
      nightLenMin := nightLenMin
      mode := "normal"
      noonUTC := some noonUTC }

/-- Source lines 361-465: the AUT orchestrator.  The source builds the UTC
anchors for yesterday, today and tomorrow from its Date argument and takes
tUTC = minutesLocalToUTCMinutes(nowLocal); here the UTC day of year n of
the current day and tUTC are the arguments, and the adjacent days are n - 1
and n + 1 (the NOAA gamma is 2 pi periodic in steps of 365 days, so this
also models the year boundary of a 365 day year exactly).  The unreachable
second mode test of the source (line 393) is subsumed by the match. -/
def computeAUT (n latDeg lonDeg tUTC : ℝ) : AUTResult :=
  match sunriseSunsetUTCMinutes n latDeg lonDeg with
  | .polar_day noonUTC EoT _ => computeAUTEquilux tUTC lonDeg EoT noonUTC
  | .polar_night noonUTC EoT _ => computeAUTEquilux tUTC lonDeg EoT noonUTC
  | .normal sunriseToday sunsetToday noonUTC EoT _ =>
    match sunriseSunsetUTCMinutes (n - 1) latDeg lonDeg,
        sunriseSunsetUTCMinutes (n + 1) latDeg lonDeg with
    | .normal _ sunsetYest _ _ _, .normal sunriseTom _ _ _ _ =>
      computeAUTNormalFlow tUTC sunriseToday sunsetToday noonUTC sunsetYest sunriseTom
    | _, _ => computeAUTEquilux tUTC lonDeg EoT noonUTC

end



/-! ## Helper lemmas for the ray window classifier -/

lemma rayIndexForAUT_finite (q : ℚ) :
    rayIndexForAUT (.finite q) = (firstMatchIdx (qRem (qRem q 24 + 24) 24) RAY_WINDOWS).getD 0 :=
  rfl

lemma firstMatchIdx_pos (h : ℚ) (r : RayWindow) (rs : List RayWindow) (hp : rayMatch h r) :
    firstMatchIdx h (r :: rs) = some 0 := by
  simp [firstMatchIdx, hp]

lemma firstMatchIdx_neg (h : ℚ) (r : RayWindow) (rs : List RayWindow) (hp : ¬ rayMatch h r) :
    firstMatchIdx h (r :: rs) = (firstMatchIdx h rs).map (· + 1) := by
  simp [firstMatchIdx, hp]

lemma qWrap24_eq (q : ℚ) (h0 : 0 ≤ q) (h24 : q < 24) : qRem (qRem q 24 + 24) 24 = q := by
  have h1 : qRem q 24 = q := by
    have hf : ⌊q / 24⌋ = 0 := by
      rw [Int.floor_eq_zero_iff]
      constructor
      · positivity
      · rw [div_lt_one (by norm_num)]; linarith
    simp [qRem, qtrunc, div_nonneg h0, hf]
  have h2 : ⌊(q + 24) / 24⌋ = 1 := by
    rw [Int.floor_eq_iff]
    constructor
    · rw [le_div_iff₀ (by norm_num)]; push_cast; linarith
    · rw [div_lt_iff₀ (by norm_num)]; push_cast; linarith
  have h3 : (0:ℚ) ≤ (q + 24) / 24 := by positivity
  rw [h1]
  simp only [qRem, qtrunc, if_pos h3, h2]
  push_cast
  ring

lemma rayMatch_getD_iff (i : ℕ) (hi : i < 12) (h : ℚ) :
    rayMatch h (RAY_WINDOWS.getD i default) ↔
      2 * (i : ℚ) - RAY_EPS ≤ h ∧ h < 2 * (i : ℚ) + 2 - RAY_EPS := by
  interval_cases i <;>
    simp [RAY_WINDOWS, rayMatch, List.getD, RAY_EPS] <;> norm_num

lemma ray_unique_match (h : ℚ) (h0 : 0 ≤ h) (h24 : h < 24 - RAY_EPS) :
    ∃! i : ℕ, i < 12 ∧ rayMatch h (RAY_WINDOWS.getD i default) := by
  have heps : (0:ℚ) < RAY_EPS := by norm_num [RAY_EPS]
  have hd0 : (0:ℚ) ≤ (h + RAY_EPS) / 2 := by positivity
  have hk0 : (0:ℤ) ≤ ⌊(h + RAY_EPS) / 2⌋ := Int.floor_nonneg.mpr hd0
  set kz := ⌊(h + RAY_EPS) / 2⌋ with hkz
  have hkle : (kz : ℚ) ≤ (h + RAY_EPS) / 2 := Int.floor_le _
  have hklt : (h + RAY_EPS) / 2 < kz + 1 := Int.lt_floor_add_one _
  have hk12 : kz < 12 := by
    have h12 : (h + RAY_EPS) / 2 < 12 := by rw [div_lt_iff₀ (by norm_num)]; linarith
    have hc : (kz : ℚ) < 12 := lt_of_le_of_lt hkle h12
    exact_mod_cast hc
  refine ⟨kz.toNat, ⟨?_, ?_⟩, ?_⟩
  · omega
  · rw [rayMatch_getD_iff _ (by omega)]
    have hcast : ((kz.toNat : ℕ) : ℚ) = (kz : ℚ) := by
      exact_mod_cast congrArg (Int.cast : ℤ → ℚ) (Int.toNat_of_nonneg hk0)
    rw [hcast]
    constructor
    · nlinarith [hkle]
    · nlinarith [hklt]
  · rintro j ⟨hj12, hjm⟩
    rw [rayMatch_getD_iff _ hj12] at hjm
    obtain ⟨hj1, hj2⟩ := hjm
    have hk1 : 2 * (kz : ℚ) - RAY_EPS ≤ h := by nlinarith [hkle]
    have hk2 : h < 2 * (kz : ℚ) + 2 - RAY_EPS := by nlinarith [hklt]
    have hcast : ((j : ℕ) : ℚ) < (kz : ℚ) + 1 := by linarith
    have hcast2 : (kz : ℚ) < ((j : ℕ) : ℚ) + 1 := by linarith
    have hjk : (j : ℤ) = kz := by
      have a1 : (j : ℤ) < kz + 1 := by exact_mod_cast hcast
      have a2 : kz < (j : ℤ) + 1 := by exact_mod_cast hcast2
      omega
    omega

lemma firstMatchIdx_spec (h : ℚ) (l : List RayWindow) (i : ℕ)
    (heq : firstMatchIdx h l = some i) : i < l.length ∧ rayMatch h (l.getD i default) := by
  induction l generalizing i with
  | nil => simp [firstMatchIdx] at heq
  | cons r rs ih =>
    by_cases hm : rayMatch h r
    · rw [firstMatchIdx_pos _ _ _ hm] at heq
      have : i = 0 := by simpa using heq.symm
      subst this
      exact ⟨by simp, by simpa [List.getD] using hm⟩
    · rw [firstMatchIdx_neg _ _ _ hm, Option.map_eq_some'] at heq
      obtain ⟨j, hj, hji⟩ := heq
      obtain ⟨h1, h2⟩ := ih _ hj
      subst hji
      exact ⟨by simpa using Nat.succ_lt_succ h1, by simpa [List.getD] using h2⟩

lemma firstMatchIdx_isSome_of (h : ℚ) (l : List RayWindow) (k : ℕ) (hk : k < l.length)
    (hm : rayMatch h (l.getD k default)) : (firstMatchIdx h l).isSome := by
  induction l generalizing k with
  | nil => simp at hk
  | cons r rs ih =>
    by_cases hm0 : rayMatch h r
    · rw [firstMatchIdx_pos _ _ _ hm0]; rfl
    · rw [firstMatchIdx_neg _ _ _ hm0]
      rw [show (Option.map (fun x => x + 1) (firstMatchIdx h rs)).isSome
            = (firstMatchIdx h rs).isSome from by cases firstMatchIdx h rs <;> rfl]
      cases k with
      | zero => exact absurd (by simpa [List.getD] using hm) hm0
      | succ j => exact ih j (by simpa using hk) (by simpa [List.getD] using hm)

lemma rayIndexForAUT_eq (q : ℚ) (k : ℕ) (hk : k < 12) (h0 : 0 ≤ q) (h24 : q < 24 - RAY_EPS)
    (hm : rayMatch q (RAY_WINDOWS.getD k default)) : rayIndexForAUT (.finite q) = k := by
  have heps : (0:ℚ) < RAY_EPS := by norm_num [RAY_EPS]
  have h24' : q < 24 := by linarith
  rw [rayIndexForAUT_finite, qWrap24_eq q h0 h24']
  have hlen : RAY_WINDOWS.length = 12 := by rfl
  have hsome := firstMatchIdx_isSome_of q RAY_WINDOWS k (by rw [hlen]; exact hk) hm
  obtain ⟨i, hi⟩ := Option.isSome_iff_exists.mp hsome
  obtain ⟨hilt, him⟩ := firstMatchIdx_spec q RAY_WINDOWS i hi
  rw [hi]
  exact (ray_unique_match q h0 h24).unique ⟨by rw [hlen] at hilt; exact hilt, him⟩ ⟨hk, hm⟩

example : rayIndexForAUT (.finite (1/2)) = 0 :=
  rayIndexForAUT_eq _ 0 (by norm_num) (by norm_num) (by norm_num [RAY_EPS])
    (by norm_num [rayMatch, RAY_WINDOWS, RAY_EPS, List.getD])

example : rayIndexForAUT (.finite 19) = 9 :=
  rayIndexForAUT_eq _ 9 (by norm_num) (by norm_num) (by norm_num [RAY_EPS])
    (by norm_num [rayMatch, RAY_WINDOWS, RAY_EPS, List.getD])

example : rayIndexForAUT (.finite (239999/10000)) = 11 :=
  rayIndexForAUT_eq _ 11 (by norm_num) (by norm_num) (by norm_num [RAY_EPS])
    (by norm_num [rayMatch, RAY_WINDOWS, RAY_EPS, List.getD])

example : (RAY_WINDOWS.getD 9 default).start = 18 := by norm_num [RAY_WINDOWS, List.getD]



lemma rayIndexForAUT_zero : rayIndexForAUT (.finite 0) = 0 :=
  rayIndexForAUT_eq 0 0 (by norm_num) le_rfl (by norm_num [RAY_EPS])
    (by norm_num [rayMatch, RAY_WINDOWS, RAY_EPS, List.getD])

/-- C6 (amended): rayIndexForAUT wraps its input into [0, 24) with the
double remainder idiom; every wrapped hour in [0, 24 - 1e-9) matches
exactly one of the twelve epsilon shifted windows; a value landing exactly
on a 2 hour boundary resolves to the later window; 0.5 lands in the [0, 2)
window named Red, 19.0 in the [18, 20) window, and 23.9999 in the [22, 24)
window.  Hours in the sliver [24 - 1e-9, 24) match no window and fall back
to index 0, which is why the range of full coverage is [0, 24 - 1e-9)
rather than [0, 24). -/
theorem rayIndexForAUT_coverage :
    (∀ q : ℚ, 0 ≤ q → q < 24 → qRem (qRem q 24 + 24) 24 = q) ∧
    (∀ h : ℚ, 0 ≤ h → h < 24 - RAY_EPS →
      ∃! i : ℕ, i < 12 ∧ rayMatch h (RAY_WINDOWS.getD i default)) ∧
    (∀ k : ℕ, k < 12 → rayIndexForAUT (.finite (2 * (k:ℚ))) = k) ∧
    (rayIndexForAUT (.finite (1/2)) = 0 ∧ (RAY_WINDOWS.getD 0 default).name = "Red" ∧
      (RAY_WINDOWS.getD 0 default).start = 0 ∧ (RAY_WINDOWS.getD 0 default).endHour = 2) ∧
    (rayIndexForAUT (.finite 19) = 9 ∧ (RAY_WINDOWS.getD 9 default).start = 18 ∧
      (RAY_WINDOWS.getD 9 default).endHour = 20) ∧
    (rayIndexForAUT (.finite (239999/10000)) = 11 ∧ (RAY_WINDOWS.getD 11 default).start = 22 ∧
      (RAY_WINDOWS.getD 11 default).endHour = 24) := by
  refine ⟨qWrap24_eq, ray_unique_match, ?_, ⟨?_, ?_, ?_, ?_⟩, ⟨?_, ?_, ?_⟩, ⟨?_, ?_, ?_⟩⟩
  · intro k hk
    have hk11 : (k:ℚ) ≤ 11 := by exact_mod_cast Nat.lt_succ_iff.mp hk
    refine rayIndexForAUT_eq _ k hk (by positivity) ?_ ?_
    · norm_num [RAY_EPS]; linarith
    · rw [rayMatch_getD_iff k hk]
      norm_num [RAY_EPS]
      linarith
  · exact rayIndexForAUT_eq _ 0 (by norm_num) (by norm_num) (by norm_num [RAY_EPS])
      (by norm_num [rayMatch, RAY_WINDOWS, RAY_EPS, List.getD])
  · norm_num [RAY_WINDOWS, List.getD]
  · norm_num [RAY_WINDOWS, List.getD]
  · norm_num [RAY_WINDOWS, List.getD]
  · exact rayIndexForAUT_eq _ 9 (by norm_num) (by norm_num) (by norm_num [RAY_EPS])
      (by norm_num [rayMatch, RAY_WINDOWS, RAY_EPS, List.getD])
  · norm_num [RAY_WINDOWS, List.getD]
  · norm_num [RAY_WINDOWS, List.getD]
  · exact rayIndexForAUT_eq _ 11 (by norm_num) (by norm_num) (by norm_num [RAY_EPS])
      (by norm_num [rayMatch, RAY_WINDOWS, RAY_EPS, List.getD])
  · norm_num [RAY_WINDOWS, List.getD]
  · norm_num [RAY_WINDOWS, List.getD]

/-- C6 witness: the coverage theorem applied at the concrete hour 0.5. -/
theorem rayIndexForAUT_coverage_witness :
    ∃! i : ℕ, i < 12 ∧ rayMatch (1/2) (RAY_WINDOWS.getD i default) :=
  rayIndexForAUT_coverage.2.1 (1/2) (by norm_num) (by norm_num [RAY_EPS])

/-- C6 counterexample: the finite hour 24 - 1e-10 lies in [0, 24) yet
matches none of the twelve epsilon shifted windows, so the scan reaches the
fallback and returns index 0; the original claim that every h in [0, 24)
maps to exactly one window is therefore false. -/
theorem rayIndexForAUT_sliver_counterexample :
    (0:ℚ) ≤ 24 - 1/10000000000 ∧ (24 - 1/10000000000 : ℚ) < 24 ∧
    (∀ i : ℕ, i < 12 → ¬ rayMatch (24 - 1/10000000000) (RAY_WINDOWS.getD i default)) ∧
    rayIndexForAUT (.finite (24 - 1/10000000000)) = 0 := by
  refine ⟨by norm_num, by norm_num, ?_, ?_⟩
  · intro i hi
    rw [rayMatch_getD_iff i hi]
    rintro ⟨h1, h2⟩
    have hi11 : (i:ℚ) ≤ 11 := by exact_mod_cast Nat.lt_succ_iff.mp hi
    norm_num [RAY_EPS] at h2
    linarith
  · rw [rayIndexForAUT_finite, qWrap24_eq _ (by norm_num) (by norm_num)]
    simp only [RAY_WINDOWS]
    rw [firstMatchIdx_neg _ _ _ (by norm_num [rayMatch, RAY_EPS])]
    rw [firstMatchIdx_neg _ _ _ (by norm_num [rayMatch, RAY_EPS])]
    rw [firstMatchIdx_neg _ _ _ (by norm_num [rayMatch, RAY_EPS])]
    rw [firstMatchIdx_neg _ _ _ (by norm_num [rayMatch, RAY_EPS])]
    rw [firstMatchIdx_neg _ _ _ (by norm_num [rayMatch, RAY_EPS])]
    rw [firstMatchIdx_neg _ _ _ (by norm_num [rayMatch, RAY_EPS])]
    rw [firstMatchIdx_neg _ _ _ (by norm_num [rayMatch, RAY_EPS])]
    rw [firstMatchIdx_neg _ _ _ (by norm_num [rayMatch, RAY_EPS])]
    rw [firstMatchIdx_neg _ _ _ (by norm_num [rayMatch, RAY_EPS])]
    rw [firstMatchIdx_neg _ _ _ (by norm_num [rayMatch, RAY_EPS])]
    rw [firstMatchIdx_neg _ _ _ (by norm_num [rayMatch, RAY_EPS])]
    rw [firstMatchIdx_neg _ _ _ (by norm_num [rayMatch, RAY_EPS])]
    rfl

/-- C9: a non-finite input (NaN or plus or minus Infinity) is coerced to 0
by the Number.isFinite guard before wrapping, so the classifier returns
window index 0, the [0, 2) Red window, instead of propagating the
non-finite value or failing. -/
theorem rayIndexForAUT_nonfinite (x : JSNum) (hx : x.isFinite = false) :
    rayIndexForAUT x = 0 := by
  cases x with
  | finite q => simp [JSNum.isFinite] at hx
  | nan => exact rayIndexForAUT_zero
  | posInf => exact rayIndexForAUT_zero
  | negInf => exact rayIndexForAUT_zero

/-- C9 witness: the non-finite theorem applied to NaN. -/
theorem rayIndexForAUT_nonfinite_witness :
    JSNum.nan.isFinite = false ∧ rayIndexForAUT .nan = 0 :=
  ⟨rfl, rayIndexForAUT_nonfinite .nan rfl⟩




/-! ## Numeric toolbox for the solar pipeline -/

open Real

lemma DEG_pos : 0 < DEG := by
  unfold DEG; positivity

lemma RAD_pos : 0 < RAD := by
  unfold RAD; positivity

lemma RAD_mul_DEG : RAD * DEG = 1 := by
  unfold RAD DEG
  field_simp

lemma arcsin_le_two_mul {y : ℝ} (h0 : 0 ≤ y) (h34 : y ≤ 3/4) : Real.arcsin y ≤ 2 * y := by
  rcases eq_or_lt_of_le h0 with h | h
  · rw [← h]; simp
  · set t := Real.arcsin y with ht
    have ht0 : 0 < t := Real.arcsin_pos.mpr h
    have htpi : t ≤ Real.pi / 2 := Real.arcsin_le_pi_div_two y
    have hsin : Real.sin t = y := Real.sin_arcsin (by linarith) (by linarith)
    have hsin1 : (3:ℝ)/4 < Real.sin 1 := by
      have h14 := Real.sin_gt_sub_cube (by norm_num : (0:ℝ) < 1) (le_refl 1)
      norm_num at h14
      linarith
    have ht1 : t ≤ 1 := by
      by_contra hcon
      push_neg at hcon
      have hpi2 : (1:ℝ) ≤ Real.pi / 2 := by
        have := Real.pi_gt_three; linarith
      have hmono := Real.strictMonoOn_sin (a := 1) (b := t)
        ⟨by linarith, hpi2⟩ ⟨by linarith, htpi⟩ hcon
      rw [hsin] at hmono
      linarith
    have hcube := Real.sin_gt_sub_cube ht0 ht1
    rw [hsin] at hcube
    nlinarith [sq_nonneg t, sq_nonneg (t - 1)]

lemma le_arcsin_self {y : ℝ} (h0 : 0 ≤ y) (h1 : y ≤ 1) : y ≤ Real.arcsin y := by
  have ht0 : 0 ≤ Real.arcsin y := Real.arcsin_nonneg.mpr h0
  have hsin : Real.sin (Real.arcsin y) = y := Real.sin_arcsin (by linarith) h1
  have := Real.sin_le ht0
  linarith

lemma arccos_le_of {x : ℝ} (h : -3/4 ≤ x) : Real.arccos x ≤ Real.pi / 2 + 2 * |x| := by
  rcases le_or_lt 0 x with hx | hx
  · have := Real.arccos_le_pi_div_two.mpr hx
    have : |x| = x := abs_of_nonneg hx
    nlinarith [Real.arccos_le_pi_div_two.mpr hx, abs_nonneg x]
  · rw [Real.arccos_eq_pi_div_two_sub_arcsin]
    have habs : |x| = -x := abs_of_neg hx
    have harc : Real.arcsin (-x) ≤ 2 * (-x) :=
      arcsin_le_two_mul (y := -x) (by linarith) (by linarith)
    rw [Real.arcsin_neg] at harc
    rw [habs]
    linarith

lemma arccos_ge_of {x : ℝ} (h : x ≤ 3/4) : Real.pi / 2 - 2 * |x| ≤ Real.arccos x := by
  rcases le_or_lt 0 x with hx | hx
  · rw [Real.arccos_eq_pi_div_two_sub_arcsin]
    have habs : |x| = x := abs_of_nonneg hx
    have := arcsin_le_two_mul hx h
    rw [habs]
    linarith
  · rw [Real.arccos_eq_pi_div_two_sub_arcsin]
    have := Real.arcsin_nonpos.mpr (le_of_lt hx)
    have := abs_nonneg x
    linarith

lemma abs_declSeries_le (g : ℝ) : |declSeries g| ≤ 0.489 := by
  have c1 := Real.neg_one_le_cos g;   have c1' := Real.cos_le_one g
  have c2 := Real.neg_one_le_cos (2*g); have c2' := Real.cos_le_one (2*g)
  have c3 := Real.neg_one_le_cos (3*g); have c3' := Real.cos_le_one (3*g)
  have s1 := Real.neg_one_le_sin g;   have s1' := Real.sin_le_one g
  have s2 := Real.neg_one_le_sin (2*g); have s2' := Real.sin_le_one (2*g)
  have s3 := Real.neg_one_le_sin (3*g); have s3' := Real.sin_le_one (3*g)
  rw [abs_le]
  unfold declSeries
  constructor <;> nlinarith

lemma abs_eotSeries_le (g : ℝ) : |eotSeries g| ≤ 0.0895 := by
  have c1 := Real.neg_one_le_cos g;   have c1' := Real.cos_le_one g
  have c2 := Real.neg_one_le_cos (2*g); have c2' := Real.cos_le_one (2*g)
  have s1 := Real.neg_one_le_sin g;   have s1' := Real.sin_le_one g
  have s2 := Real.neg_one_le_sin (2*g); have s2' := Real.sin_le_one (2*g)
  rw [abs_le]
  unfold eotSeries
  constructor <;> nlinarith

lemma abs_EoT_le (n : ℝ) : |(solarParamsNOAA n).EoT| ≤ 20.52 := by
  have h := abs_eotSeries_le (2 * Real.pi * (n - 1) / 365)
  have : (solarParamsNOAA n).EoT = 229.18 * eotSeries (2 * Real.pi * (n - 1) / 365) := rfl
  rw [this, abs_mul, abs_of_pos (by norm_num : (0:ℝ) < 229.18)]
  nlinarith [abs_nonneg (eotSeries (2 * Real.pi * (n - 1) / 365))]

lemma declDeg_mul_DEG (n : ℝ) :
    (solarParamsNOAA n).declDeg * DEG = Real.arcsin (declSeries (2 * Real.pi * (n - 1) / 365)) := by
  have : (solarParamsNOAA n).declDeg
      = Real.arcsin (declSeries (2 * Real.pi * (n - 1) / 365)) * RAD := rfl
  rw [this, mul_assoc, RAD_mul_DEG, mul_one]

lemma sin_decl_eq (n : ℝ) :
    Real.sin ((solarParamsNOAA n).declDeg * DEG) = declSeries (2 * Real.pi * (n - 1) / 365) := by
  rw [declDeg_mul_DEG]
  have h := abs_declSeries_le (2 * Real.pi * (n - 1) / 365)
  rw [abs_le] at h
  exact Real.sin_arcsin (by linarith [h.1]) (by linarith [h.2])

lemma cos_decl_bounds (n : ℝ) :
    0.87 ≤ Real.cos ((solarParamsNOAA n).declDeg * DEG) ∧
      Real.cos ((solarParamsNOAA n).declDeg * DEG) ≤ 1 := by
  rw [declDeg_mul_DEG]
  constructor
  · rw [Real.cos_arcsin]
    have h := abs_declSeries_le (2 * Real.pi * (n - 1) / 365)
    rw [Real.le_sqrt' (by norm_num)]
    nlinarith [abs_nonneg (declSeries (2 * Real.pi * (n - 1) / 365)), sq_abs (declSeries (2 * Real.pi * (n - 1) / 365))]
  · exact Real.cos_le_one _

lemma sin_alpha_bounds :
    0.0145 ≤ Real.sin (0.833 * DEG) ∧ Real.sin (0.833 * DEG) ≤ 0.0146 := by
  have hpi1 : (3.1415:ℝ) < Real.pi := Real.pi_gt_d4
  have hpi2 : Real.pi < 3.1416 := Real.pi_lt_d4
  have hDEG : DEG = Real.pi / 180 := rfl
  have ha_lb : (0.0145381:ℝ) ≤ 0.833 * DEG := by rw [hDEG]; nlinarith
  have ha_ub : (0.833:ℝ) * DEG ≤ 0.0145387 := by rw [hDEG]; nlinarith
  have ha0 : (0:ℝ) < 0.833 * DEG := by linarith
  have hlt := Real.sin_lt ha0
  have hgt := Real.sin_gt_sub_cube ha0 (by linarith)
  constructor
  · nlinarith [sq_nonneg (0.833 * DEG)]
  · linarith



/-! ## Structure lemmas for the sun window solver and the orchestrator -/

lemma min_max_clamp {x : ℝ} (hm : -1 ≤ x) (h1 : x ≤ 1) : min 1 (max (-1) x) = x := by
  rw [max_eq_right hm, min_eq_right h1]

lemma fourH0_pi (A : ℝ) : 4 * (A * RAD) * Real.pi = 720 * A := by
  have hR : RAD * Real.pi = 180 := by
    unfold RAD; field_simp
  linear_combination 4 * A * hR

lemma fourH0_le_of {A c : ℝ} (h : 720 * A ≤ c * Real.pi) : 4 * (A * RAD) ≤ c := by
  have h3 := fourH0_pi A
  nlinarith [Real.pi_pos]

lemma le_fourH0_of {A c : ℝ} (h : c * Real.pi ≤ 720 * A) : c ≤ 4 * (A * RAD) := by
  have h3 := fourH0_pi A
  nlinarith [Real.pi_pos]

lemma sSS_eq_normal (n lat lon : ℝ)
    (hm : -1 ≤ hourAngleCosine lat (solarParamsNOAA n).declDeg)
    (h1 : hourAngleCosine lat (solarParamsNOAA n).declDeg ≤ 1) :
    sunriseSunsetUTCMinutes n lat lon =
      .normal
        (solarNoonUTCMinutes lon (solarParamsNOAA n).EoT
          - 4 * (Real.arccos (hourAngleCosine lat (solarParamsNOAA n).declDeg) * RAD))
        (solarNoonUTCMinutes lon (solarParamsNOAA n).EoT
          + 4 * (Real.arccos (hourAngleCosine lat (solarParamsNOAA n).declDeg) * RAD))
        (solarNoonUTCMinutes lon (solarParamsNOAA n).EoT)
        (solarParamsNOAA n).EoT (solarParamsNOAA n).declDeg := by
  simp only [sunriseSunsetUTCMinutes]
  rw [if_neg (not_lt.mpr h1), if_neg (not_lt.mpr hm), min_max_clamp hm h1]

lemma sSS_eq_polar_night (n lat lon : ℝ)
    (h : 1 < hourAngleCosine lat (solarParamsNOAA n).declDeg) :
    sunriseSunsetUTCMinutes n lat lon =
      .polar_night (solarNoonUTCMinutes lon (solarParamsNOAA n).EoT)
        (solarParamsNOAA n).EoT (solarParamsNOAA n).declDeg := by
  simp only [sunriseSunsetUTCMinutes]
  rw [if_pos h]

lemma sSS_eq_polar_day (n lat lon : ℝ)
    (h : hourAngleCosine lat (solarParamsNOAA n).declDeg < -1) :
    sunriseSunsetUTCMinutes n lat lon =
      .polar_day (solarNoonUTCMinutes lon (solarParamsNOAA n).EoT)
        (solarParamsNOAA n).EoT (solarParamsNOAA n).declDeg := by
  simp only [sunriseSunsetUTCMinutes]
  rw [if_neg (by linarith), if_pos h]

lemma eq_normal_of_mode (w : SunWindow) (h : w.mode = "normal") :
    w = .normal w.sunriseUTC w.sunsetUTC w.noonUTC w.EoT w.declDeg := by
  cases w with
  | polar_night a b c => exact absurd h (by simp [SunWindow.mode])
  | polar_day a b c => exact absurd h (by simp [SunWindow.mode])
  | normal a b c d e => rfl

lemma eq_polar_night_of_mode (w : SunWindow) (h : w.mode = "polar_night") :
    w = .polar_night w.noonUTC w.EoT w.declDeg := by
  cases w with
  | polar_night a b c => rfl
  | polar_day a b c => exact absurd h (by simp [SunWindow.mode])
  | normal a b c d e => exact absurd h (by simp [SunWindow.mode])

lemma eq_polar_day_of_mode (w : SunWindow) (h : w.mode = "polar_day") :
    w = .polar_day w.noonUTC w.EoT w.declDeg := by
  cases w with
  | polar_night a b c => exact absurd h (by simp [SunWindow.mode])
  | polar_day a b c => rfl
  | normal a b c d e => exact absurd h (by simp [SunWindow.mode])

lemma sunrise_le_sunset_of_mode (n lat lon : ℝ)
    (h : (sunriseSunsetUTCMinutes n lat lon).mode = "normal") :
    (sunriseSunsetUTCMinutes n lat lon).sunriseUTC ≤ (sunriseSunsetUTCMinutes n lat lon).sunsetUTC := by
  by_cases h1 : 1 < hourAngleCosine lat (solarParamsNOAA n).declDeg
  · rw [sSS_eq_polar_night n lat lon h1] at h
    exact absurd h (by simp [SunWindow.mode])
  by_cases h2 : hourAngleCosine lat (solarParamsNOAA n).declDeg < -1
  · rw [sSS_eq_polar_day n lat lon h2] at h
    exact absurd h (by simp [SunWindow.mode])
  rw [sSS_eq_normal n lat lon (not_lt.mp h2) (not_lt.mp h1)]
  simp only [SunWindow.sunriseUTC, SunWindow.sunsetUTC]
  have hA := Real.arccos_nonneg (hourAngleCosine lat (solarParamsNOAA n).declDeg)
  have hR := RAD_pos
  nlinarith

lemma computeAUT_eq_normalFlow (n lat lon t : ℝ)
    (hT : (sunriseSunsetUTCMinutes n lat lon).mode = "normal")
    (hY : (sunriseSunsetUTCMinutes (n - 1) lat lon).mode = "normal")
    (hM : (sunriseSunsetUTCMinutes (n + 1) lat lon).mode = "normal") :
    computeAUT n lat lon t =
      computeAUTNormalFlow t (sunriseSunsetUTCMinutes n lat lon).sunriseUTC
        (sunriseSunsetUTCMinutes n lat lon).sunsetUTC
        (sunriseSunsetUTCMinutes n lat lon).noonUTC
        (sunriseSunsetUTCMinutes (n - 1) lat lon).sunsetUTC
        (sunriseSunsetUTCMinutes (n + 1) lat lon).sunriseUTC := by
  have h1 := eq_normal_of_mode _ hT
  have h2 := eq_normal_of_mode _ hY
  have h3 := eq_normal_of_mode _ hM
  conv_lhs => rw [computeAUT, h1, h2, h3]

lemma computeAUT_eq_equilux_polar (n lat lon t : ℝ)
    (hT : (sunriseSunsetUTCMinutes n lat lon).mode = "polar_day" ∨
          (sunriseSunsetUTCMinutes n lat lon).mode = "polar_night") :
    computeAUT n lat lon t =
      computeAUTEquilux t lon (sunriseSunsetUTCMinutes n lat lon).EoT
        (sunriseSunsetUTCMinutes n lat lon).noonUTC := by
  rcases hT with h | h
  · have h1 := eq_polar_day_of_mode _ h
    conv_lhs => rw [computeAUT, h1]
  · have h1 := eq_polar_night_of_mode _ h
    conv_lhs => rw [computeAUT, h1]

lemma computeAUT_eq_equilux_adjacent (n lat lon t : ℝ)
    (hT : (sunriseSunsetUTCMinutes n lat lon).mode = "normal")
    (hadj : (sunriseSunsetUTCMinutes (n - 1) lat lon).mode ≠ "normal" ∨
            (sunriseSunsetUTCMinutes (n + 1) lat lon).mode ≠ "normal") :
    computeAUT n lat lon t =
      computeAUTEquilux t lon (sunriseSunsetUTCMinutes n lat lon).EoT
        (sunriseSunsetUTCMinutes n lat lon).noonUTC := by
  have h1 := eq_normal_of_mode _ hT
  rcases hy : sunriseSunsetUTCMinutes (n - 1) lat lon with a | a | a <;>
    rcases hm : sunriseSunsetUTCMinutes (n + 1) lat lon with b | b | b <;>
    · first
      | (exfalso
         rcases hadj with hc | hc
         · exact hc (by rw [hy]; rfl)
         · exact hc (by rw [hm]; rfl))
      | (conv_lhs => rw [computeAUT, h1, hy, hm])



/-! ## Concrete latitude bounds -/

lemma hourAngle_lat0 (n : ℝ) :
    -0.0168 ≤ hourAngleCosine 0 (solarParamsNOAA n).declDeg ∧
      hourAngleCosine 0 (solarParamsNOAA n).declDeg ≤ -0.0145 := by
  obtain ⟨hs1, hs2⟩ := sin_alpha_bounds
  obtain ⟨hc1, hc2⟩ := cos_decl_bounds n
  have hc0 : 0 < Real.cos ((solarParamsNOAA n).declDeg * DEG) := by linarith
  have hx : hourAngleCosine 0 (solarParamsNOAA n).declDeg
      = -Real.sin (0.833 * DEG) / Real.cos ((solarParamsNOAA n).declDeg * DEG) := by
    unfold hourAngleCosine
    rw [neg_mul, Real.sin_neg, zero_mul, Real.sin_zero, Real.cos_zero, zero_mul, sub_zero, one_mul]
  rw [hx, neg_div]
  have h1 : Real.sin (0.833 * DEG) / Real.cos ((solarParamsNOAA n).declDeg * DEG) ≤ 0.0168 := by
    rw [div_le_iff₀ hc0]; nlinarith
  have h2 : (0.0145:ℝ) ≤ Real.sin (0.833 * DEG) / Real.cos ((solarParamsNOAA n).declDeg * DEG) := by
    rw [le_div_iff₀ hc0]; nlinarith
  constructor <;> linarith

lemma window_lat0 (n lon : ℝ) :
    sunriseSunsetUTCMinutes n 0 lon =
      .normal ((sunriseSunsetUTCMinutes n 0 lon).sunriseUTC)
        ((sunriseSunsetUTCMinutes n 0 lon).sunsetUTC)
        (solarNoonUTCMinutes lon (solarParamsNOAA n).EoT)
        (solarParamsNOAA n).EoT (solarParamsNOAA n).declDeg ∧
    solarNoonUTCMinutes lon (solarParamsNOAA n).EoT - 367.71
        ≤ (sunriseSunsetUTCMinutes n 0 lon).sunriseUTC ∧
    (sunriseSunsetUTCMinutes n 0 lon).sunriseUTC
        ≤ solarNoonUTCMinutes lon (solarParamsNOAA n).EoT - 363.32 ∧
    solarNoonUTCMinutes lon (solarParamsNOAA n).EoT + 363.32
        ≤ (sunriseSunsetUTCMinutes n 0 lon).sunsetUTC ∧
    (sunriseSunsetUTCMinutes n 0 lon).sunsetUTC
        ≤ solarNoonUTCMinutes lon (solarParamsNOAA n).EoT + 367.71 := by
  obtain ⟨hx1, hx2⟩ := hourAngle_lat0 n
  set x := hourAngleCosine 0 (solarParamsNOAA n).declDeg with hxdef
  have heq := sSS_eq_normal n 0 lon (by linarith) (by linarith)
  have hpi1 : (3.1415:ℝ) < Real.pi := Real.pi_gt_d4
  have hpi2 : Real.pi < 3.1416 := Real.pi_lt_d4
  -- arccos bounds for x in [-0.0168, -0.0145]
  have hA_ub : Real.arccos x ≤ Real.pi / 2 + 0.0336 := by
    have h := arccos_le_of (x := x) (by linarith)
    have habs : |x| = -x := abs_of_neg (by linarith)
    rw [habs] at h
    linarith
  have hA_lb : Real.pi / 2 + 0.0145 ≤ Real.arccos x := by
    rw [Real.arccos_eq_pi_div_two_sub_arcsin]
    have harc : Real.arcsin (-x) ≥ -x := le_arcsin_self (by linarith) (by linarith)
    rw [ge_iff_le] at harc
    rw [Real.arcsin_neg] at harc
    linarith
  have hfour_ub : 4 * (Real.arccos x * RAD) ≤ 367.71 :=
    fourH0_le_of (by nlinarith)
  have hfour_lb : (363.32:ℝ) ≤ 4 * (Real.arccos x * RAD) :=
    le_fourH0_of (by nlinarith)
  have hsr : (sunriseSunsetUTCMinutes n 0 lon).sunriseUTC
      = solarNoonUTCMinutes lon (solarParamsNOAA n).EoT - 4 * (Real.arccos x * RAD) := by
    rw [heq]; rfl
  have hss : (sunriseSunsetUTCMinutes n 0 lon).sunsetUTC
      = solarNoonUTCMinutes lon (solarParamsNOAA n).EoT + 4 * (Real.arccos x * RAD) := by
    rw [heq]; rfl
  refine ⟨?_, ?_, ?_, ?_, ?_⟩
  · rw [hsr, hss]; exact heq
  · rw [hsr]; linarith
  · rw [hsr]; linarith
  · rw [hss]; linarith
  · rw [hss]; linarith



lemma abs_sin_le_abs' (t : ℝ) : |Real.sin t| ≤ |t| := by
  rcases eq_or_ne t 0 with h | h
  · simp [h]
  · exact le_of_lt (Real.abs_sin_lt_abs h)

lemma declSeries_small {g : ℝ} (hg : |g| ≤ 0.0173) : declSeries g ≤ -0.38 := by
  obtain ⟨hg1, hg2⟩ := abs_le.mp hg
  have hsq : g^2 ≤ 0.00029929 := by nlinarith
  have hc1 : 1 - g^2/2 ≤ Real.cos g := Real.one_sub_sq_div_two_le_cos
  have hc2 : 1 - (2*g)^2/2 ≤ Real.cos (2*g) := Real.one_sub_sq_div_two_le_cos
  have hc3 : 1 - (3*g)^2/2 ≤ Real.cos (3*g) := Real.one_sub_sq_div_two_le_cos
  have e2 : (2*g)^2 = 4*g^2 := by ring
  have e3 : (3*g)^2 = 9*g^2 := by ring
  rw [e2] at hc2
  rw [e3] at hc3
  have ha2 : |2*g| = 2*|g| := by rw [abs_mul, abs_two]
  have ha3 : |3*g| = 3*|g| := by rw [abs_mul, abs_of_pos (by norm_num : (0:ℝ) < 3)]
  have hs1 := abs_le.mp ((abs_sin_le_abs' g).trans hg)
  have h2b : |2*g| ≤ 0.0346 := by rw [ha2]; linarith
  have h3b : |3*g| ≤ 0.0519 := by rw [ha3]; linarith
  have hs2 := abs_le.mp ((abs_sin_le_abs' (2*g)).trans h2b)
  have hs3 := abs_le.mp ((abs_sin_le_abs' (3*g)).trans h3b)
  unfold declSeries
  linarith [hs1.1, hs1.2, hs2.1, hs2.2, hs3.1, hs3.2]

lemma gamma_adjacent_small {n : ℝ} (hn : |n - 1| ≤ 1) : |2 * Real.pi * (n - 1) / 365| ≤ 0.0173 := by
  obtain ⟨h1, h2⟩ := abs_le.mp hn
  have hpi2 : Real.pi < 3.1416 := Real.pi_lt_d4
  have hpi0 : (0:ℝ) < Real.pi := Real.pi_pos
  have ha : Real.pi * (n - 1) ≤ Real.pi := by nlinarith
  have hb : -Real.pi ≤ Real.pi * (n - 1) := by nlinarith
  rw [abs_le]
  constructor
  · rw [le_div_iff₀ (by norm_num : (0:ℝ) < 365)]; nlinarith
  · rw [div_le_iff₀ (by norm_num : (0:ℝ) < 365)]; nlinarith

lemma angle3525_bounds :
    0.5 ≤ Real.sin (35.25 * DEG) ∧ Real.sin (35.25 * DEG) ≤ 0.708 ∧
    0.707 ≤ Real.cos (35.25 * DEG) ∧ Real.cos (35.25 * DEG) ≤ 1 := by
  have hpi0 : (0:ℝ) < Real.pi := Real.pi_pos
  have hDEG : DEG = Real.pi / 180 := rfl
  have ha1 : Real.pi/6 ≤ 35.25 * DEG := by rw [hDEG]; nlinarith
  have ha2 : 35.25 * DEG ≤ Real.pi/4 := by rw [hDEG]; nlinarith
  have ha0 : (0:ℝ) ≤ 35.25 * DEG := by rw [hDEG]; positivity
  have hs2 : (1.4142:ℝ) ≤ Real.sqrt 2 := by
    rw [Real.le_sqrt' (by norm_num)]; norm_num
  have hs2' : Real.sqrt 2 ≤ 1.41422 := by
    rw [show (1.41422:ℝ) = Real.sqrt (1.41422^2) from (Real.sqrt_sq (by norm_num)).symm]
    exact Real.sqrt_le_sqrt (by norm_num)
  refine ⟨?_, ?_, ?_, Real.cos_le_one _⟩
  · have := Real.sin_le_sin_of_le_of_le_pi_div_two (x := Real.pi/6) (y := 35.25 * DEG)
      (by linarith) (by rw [hDEG]; nlinarith) ha1
    rw [Real.sin_pi_div_six] at this
    linarith
  · have := Real.sin_le_sin_of_le_of_le_pi_div_two (x := 35.25 * DEG) (y := Real.pi/4)
      (by linarith) (by linarith) ha2
    rw [Real.sin_pi_div_four] at this
    nlinarith
  · have := Real.cos_le_cos_of_nonneg_of_le_pi (x := 35.25 * DEG) (y := Real.pi/4)
      ha0 (by linarith) ha2
    rw [Real.cos_pi_div_four] at this
    nlinarith



lemma EoT_unfold (n : ℝ) :
    (solarParamsNOAA n).EoT = 229.18 * eotSeries (2 * Real.pi * (n - 1) / 365) := rfl

lemma gamma_one : 2 * Real.pi * ((1:ℝ) - 1) / 365 = 0 := by norm_num

lemma declSeries_zero_val : declSeries 0 = -0.402449 := by
  unfold declSeries
  norm_num [Real.cos_zero, Real.sin_zero]

lemma eotSeries_zero_val : eotSeries 0 = -0.012672 := by
  unfold eotSeries
  norm_num [Real.cos_zero, Real.sin_zero]

lemma EoT_one : (solarParamsNOAA 1).EoT = -2.90416896 := by
  rw [EoT_unfold, gamma_one, eotSeries_zero_val]
  norm_num

lemma sin_decl_one : Real.sin ((solarParamsNOAA 1).declDeg * DEG) = -0.402449 := by
  rw [sin_decl_eq 1, gamma_one, declSeries_zero_val]

lemma hourAngle_3525_le (n : ℝ) :
    -1 ≤ hourAngleCosine 35.25 (solarParamsNOAA n).declDeg ∧
      hourAngleCosine 35.25 (solarParamsNOAA n).declDeg ≤ 1 := by
  obtain ⟨hsl, hsu, hcl, hcu⟩ := angle3525_bounds
  obtain ⟨hs1, hs2⟩ := sin_alpha_bounds
  obtain ⟨hc1, hc2⟩ := cos_decl_bounds n
  have hsde := sin_decl_eq n
  unfold hourAngleCosine
  rw [neg_mul, Real.sin_neg, hsde]
  set s := declSeries (2 * Real.pi * (n - 1) / 365) with hsdef
  set c := Real.cos ((solarParamsNOAA n).declDeg * DEG) with hcdef
  have hsabs := abs_le.mp (abs_declSeries_le (2 * Real.pi * (n - 1) / 365))
  rw [← hsdef] at hsabs
  have habs : |Real.sin (35.25*DEG) * s| ≤ 0.346212 := by
    rw [abs_mul, abs_of_nonneg (by linarith : (0:ℝ) ≤ Real.sin (35.25*DEG))]
    calc Real.sin (35.25*DEG) * |s| ≤ 0.708 * |s| := by nlinarith [abs_nonneg s]
      _ ≤ 0.708 * 0.489 := by
          have := abs_declSeries_le (2 * Real.pi * (n - 1) / 365)
          rw [← hsdef] at this
          nlinarith
      _ ≤ 0.346212 := by norm_num
  obtain ⟨hp1, hp2⟩ := abs_le.mp habs
  have hden : 0 < Real.cos (35.25*DEG) * c := by nlinarith
  constructor
  · rw [le_div_iff₀ hden]; nlinarith
  · rw [div_le_one hden]; nlinarith

lemma hourAngle_3525_pos {n : ℝ} (hn : |n - 1| ≤ 1) :
    0 < hourAngleCosine 35.25 (solarParamsNOAA n).declDeg := by
  obtain ⟨hsl, hsu, hcl, hcu⟩ := angle3525_bounds
  obtain ⟨hs1, hs2⟩ := sin_alpha_bounds
  obtain ⟨hc1, hc2⟩ := cos_decl_bounds n
  have hdecl := declSeries_small (gamma_adjacent_small hn)
  have hsde := sin_decl_eq n
  unfold hourAngleCosine
  rw [neg_mul, Real.sin_neg, hsde]
  set s := declSeries (2 * Real.pi * (n - 1) / 365) with hsdef
  set c := Real.cos ((solarParamsNOAA n).declDeg * DEG) with hcdef
  have hden : 0 < Real.cos (35.25*DEG) * c := by nlinarith
  apply div_pos ?_ hden
  have hprod : 0.19 ≤ Real.sin (35.25*DEG) * (-s) := by
    have k1 : (0:ℝ) ≤ Real.sin (35.25*DEG) - 0.5 := by linarith
    have k2 : (0:ℝ) ≤ -s - 0.38 := by linarith
    nlinarith [mul_nonneg k1 k2]
  nlinarith

lemma window_3525 {n : ℝ} (lon : ℝ) (hn : |n - 1| ≤ 1) :
    (sunriseSunsetUTCMinutes n 35.25 lon).mode = "normal" ∧
    (sunriseSunsetUTCMinutes n 35.25 lon).noonUTC
        = solarNoonUTCMinutes lon (solarParamsNOAA n).EoT ∧
    solarNoonUTCMinutes lon (solarParamsNOAA n).EoT - 360
        ≤ (sunriseSunsetUTCMinutes n 35.25 lon).sunriseUTC ∧
    (sunriseSunsetUTCMinutes n 35.25 lon).sunriseUTC
        ≤ solarNoonUTCMinutes lon (solarParamsNOAA n).EoT ∧
    solarNoonUTCMinutes lon (solarParamsNOAA n).EoT
        ≤ (sunriseSunsetUTCMinutes n 35.25 lon).sunsetUTC ∧
    (sunriseSunsetUTCMinutes n 35.25 lon).sunsetUTC
        ≤ solarNoonUTCMinutes lon (solarParamsNOAA n).EoT + 360 := by
  obtain ⟨hm, h1⟩ := hourAngle_3525_le n
  have hxpos := hourAngle_3525_pos hn
  set x := hourAngleCosine 35.25 (solarParamsNOAA n).declDeg with hxdef
  have heq := sSS_eq_normal n 35.25 lon hm h1
  have hA0 : 0 ≤ Real.arccos x := Real.arccos_nonneg x
  have hA2 : Real.arccos x ≤ Real.pi / 2 := Real.arccos_le_pi_div_two.mpr (le_of_lt hxpos)
  have hfour_ub : 4 * (Real.arccos x * RAD) ≤ 360 := fourH0_le_of (by nlinarith)
  have hfour_lb : 0 ≤ 4 * (Real.arccos x * RAD) := by
    have := RAD_pos
    positivity
  have hsr : (sunriseSunsetUTCMinutes n 35.25 lon).sunriseUTC
      = solarNoonUTCMinutes lon (solarParamsNOAA n).EoT - 4 * (Real.arccos x * RAD) := by
    rw [heq]; rfl
  have hss : (sunriseSunsetUTCMinutes n 35.25 lon).sunsetUTC
      = solarNoonUTCMinutes lon (solarParamsNOAA n).EoT + 4 * (Real.arccos x * RAD) := by
    rw [heq]; rfl
  refine ⟨by rw [heq]; rfl, by rw [heq]; rfl, ?_, ?_, ?_, ?_⟩
  · rw [hsr]; linarith
  · rw [hsr]; linarith
  · rw [hss]; linarith
  · rw [hss]; linarith

lemma angle899_bounds :
    0.866 ≤ Real.sin (89.9 * DEG) ∧ 0 < Real.cos (89.9 * DEG) ∧
      Real.cos (89.9 * DEG) ≤ 0.00175 := by
  have hDEG : DEG = Real.pi / 180 := rfl
  have hpi0 : (0:ℝ) < Real.pi := Real.pi_pos
  have hpi1 : (3.1415:ℝ) < Real.pi := Real.pi_gt_d4
  have hpi2 : Real.pi < 3.1416 := Real.pi_lt_d4
  have ha0 : (0:ℝ) ≤ 89.9 * DEG := by rw [hDEG]; positivity
  have ha2 : 89.9 * DEG ≤ Real.pi / 2 := by rw [hDEG]; nlinarith
  have ha2' : 89.9 * DEG < Real.pi / 2 := by rw [hDEG]; nlinarith
  have ha3 : Real.pi / 3 ≤ 89.9 * DEG := by rw [hDEG]; nlinarith
  have hs3 : (1.732:ℝ) ≤ Real.sqrt 3 := by
    rw [Real.le_sqrt' (by norm_num)]; norm_num
  refine ⟨?_, ?_, ?_⟩
  · have := Real.sin_le_sin_of_le_of_le_pi_div_two (x := Real.pi/3) (y := 89.9 * DEG)
      (by linarith) ha2 ha3
    rw [Real.sin_pi_div_three] at this
    nlinarith
  · exact Real.cos_pos_of_mem_Ioo ⟨by linarith, ha2'⟩
  · have hcs : Real.cos (89.9*DEG) = Real.sin (Real.pi/2 - 89.9*DEG) :=
      (Real.sin_pi_div_two_sub _).symm
    have harg : Real.pi/2 - 89.9*DEG = Real.pi/1800 := by rw [hDEG]; ring
    rw [hcs, harg]
    have hsle := Real.sin_le (x := Real.pi/1800) (by positivity)
    linarith

lemma hourAngle_899_gt_one : 1 < hourAngleCosine 89.9 (solarParamsNOAA 1).declDeg := by
  obtain ⟨hsl, hcp, hcu⟩ := angle899_bounds
  obtain ⟨hs1, hs2⟩ := sin_alpha_bounds
  obtain ⟨hc1, hc2⟩ := cos_decl_bounds 1
  have hsd := sin_decl_one
  unfold hourAngleCosine
  rw [neg_mul, Real.sin_neg, hsd]
  set c := Real.cos ((solarParamsNOAA 1).declDeg * DEG) with hcdef
  have hden : 0 < Real.cos (89.9*DEG) * c := by nlinarith
  rw [lt_div_iff₀ hden]
  have hdub : Real.cos (89.9*DEG) * c ≤ 0.00175 := by nlinarith
  nlinarith

lemma window_899 (lon : ℝ) :
    sunriseSunsetUTCMinutes 1 89.9 lon =
      .polar_night (solarNoonUTCMinutes lon (solarParamsNOAA 1).EoT)
        (solarParamsNOAA 1).EoT (solarParamsNOAA 1).declDeg :=
  sSS_eq_polar_night 1 89.9 lon hourAngle_899_gt_one




/-! ## Band evaluation lemmas for the normal flow -/

lemma normalFlow_day {t r s no sy rt : ℝ} (h1 : r ≤ t) (h2 : t < s) :
    computeAUTNormalFlow t r s no sy rt =
      { autHours := 12 * ((t - r) / (s - r))
        sunriseLocalMin := utcMinutesToLocalMin r 0
        sunsetLocalMin := utcMinutesToLocalMin s 0
        nextSunriseLocalMin := utcMinutesToLocalMin rt 1
        segmentLabel := "Daylight (Lux)"
        progress := (t - r) / (s - r)
        segLenMin := s - r
        dayLenMin := max 0 (s - r)
        nightLenMin := max 0 (rt + 1440 - s)
        mode := "normal"
        noonUTC := some no } := by
  unfold computeAUTNormalFlow
  rw [if_pos ⟨h1, h2⟩]

lemma normalFlow_night2 {t r s no sy rt : ℝ} (h2 : s ≤ t) :
    computeAUTNormalFlow t r s no sy rt =
      { autHours := 12 + 12 * ((t - s) / (rt + 1440 - s))
        sunriseLocalMin := utcMinutesToLocalMin r 0
        sunsetLocalMin := utcMinutesToLocalMin s 0
        nextSunriseLocalMin := utcMinutesToLocalMin rt 1
        segmentLabel := "Night (Umbra)"
        progress := (t - s) / (rt + 1440 - s)
        segLenMin := rt + 1440 - s
        dayLenMin := max 0 (s - r)
        nightLenMin := max 0 (rt + 1440 - s)
        mode := "normal"
        noonUTC := some no } := by
  unfold computeAUTNormalFlow
  rw [if_neg (by rintro ⟨_, hb⟩; linarith), if_pos h2]

lemma normalFlow_night3 {t r s no sy rt : ℝ} (h1 : t < r) (h2 : t < s) :
    computeAUTNormalFlow t r s no sy rt =
      { autHours := 12 + 12 * ((t + 1440 - (sy + 1440)) / (r - sy + 1440))
        sunriseLocalMin := utcMinutesToLocalMin r 0
        sunsetLocalMin := utcMinutesToLocalMin sy (-1)
        nextSunriseLocalMin := utcMinutesToLocalMin r 0
        segmentLabel := "Night (Umbra)"
        progress := (t + 1440 - (sy + 1440)) / (r - sy + 1440)
        segLenMin := r - sy + 1440
        dayLenMin := max 0 (s - r)
        nightLenMin := max 0 (rt + 1440 - s)
        mode := "normal"
        noonUTC := some no } := by
  unfold computeAUTNormalFlow
  rw [if_neg (by rintro ⟨ha, _⟩; linarith), if_neg (not_le.mpr h2)]



/-- C2: on the all-normal path computeAUT selects exactly one of three
mutually exclusive bands by comparing tUTC with the sunrise and sunset of
today, and computes the daylight, post-sunset and pre-sunrise formulas of
the claim, overriding sunsetLocal to the sunset of yesterday and
nextSunriseLocal to the sunrise of today in the pre-sunrise branch only. -/
theorem computeAUT_normal_band_formulas (n lat lon t : ℝ)
    {rT sT noT eT dT rY sY noY eY dY rM sM noM eM dM : ℝ}
    (hT : sunriseSunsetUTCMinutes n lat lon = .normal rT sT noT eT dT)
    (hY : sunriseSunsetUTCMinutes (n - 1) lat lon = .normal rY sY noY eY dY)
    (hM : sunriseSunsetUTCMinutes (n + 1) lat lon = .normal rM sM noM eM dM) :
    ((rT ≤ t ∧ t < sT) ∨ sT ≤ t ∨ t < rT) ∧
    (¬((rT ≤ t ∧ t < sT) ∧ sT ≤ t) ∧ ¬((rT ≤ t ∧ t < sT) ∧ t < rT) ∧
      ¬(sT ≤ t ∧ t < rT)) ∧
    (rT ≤ t → t < sT →
      (computeAUT n lat lon t).autHours = 12 * ((t - rT) / (sT - rT)) ∧
      (computeAUT n lat lon t).sunsetLocalMin = utcMinutesToLocalMin sT 0 ∧
      (computeAUT n lat lon t).nextSunriseLocalMin = utcMinutesToLocalMin rM 1) ∧
    (sT ≤ t →
      (computeAUT n lat lon t).autHours = 12 + 12 * ((t - sT) / (rM + 1440 - sT)) ∧
      (computeAUT n lat lon t).sunsetLocalMin = utcMinutesToLocalMin sT 0 ∧
      (computeAUT n lat lon t).nextSunriseLocalMin = utcMinutesToLocalMin rM 1) ∧
    (t < rT →
      (computeAUT n lat lon t).autHours
          = 12 + 12 * ((t + 1440 - (sY + 1440)) / (rT - sY + 1440)) ∧
      (computeAUT n lat lon t).sunsetLocalMin = utcMinutesToLocalMin sY (-1) ∧
      (computeAUT n lat lon t).nextSunriseLocalMin = utcMinutesToLocalMin rT 0) := by
  have hmT : (sunriseSunsetUTCMinutes n lat lon).mode = "normal" := by rw [hT]; rfl
  have hmY : (sunriseSunsetUTCMinutes (n - 1) lat lon).mode = "normal" := by rw [hY]; rfl
  have hmM : (sunriseSunsetUTCMinutes (n + 1) lat lon).mode = "normal" := by rw [hM]; rfl
  have hflow := computeAUT_eq_normalFlow n lat lon t hmT hmY hmM
  rw [hT, hY, hM] at hflow
  simp only [SunWindow.sunriseUTC, SunWindow.sunsetUTC, SunWindow.noonUTC] at hflow
  have hrs : rT ≤ sT := by
    have h := sunrise_le_sunset_of_mode n lat lon hmT
    rw [hT] at h
    exact h
  refine ⟨?_, ⟨?_, ?_, ?_⟩, ?_, ?_, ?_⟩
  · rcases le_or_lt rT t with h | h
    · rcases lt_or_le t sT with h2 | h2
      · exact Or.inl ⟨h, h2⟩
      · exact Or.inr (Or.inl h2)
    · exact Or.inr (Or.inr h)
  · rintro ⟨⟨_, h2⟩, h3⟩; linarith
  · rintro ⟨⟨h1, _⟩, h3⟩; linarith
  · rintro ⟨h1, h2⟩; linarith
  · intro h1 h2
    rw [hflow, normalFlow_day h1 h2]
    exact ⟨rfl, rfl, rfl⟩
  · intro h2
    rw [hflow, normalFlow_night2 h2]
    exact ⟨rfl, rfl, rfl⟩
  · intro h1
    rw [hflow, normalFlow_night3 h1 (lt_of_lt_of_le h1 hrs)]
    exact ⟨rfl, rfl, rfl⟩

/-- C2 witness: the band theorem applied on day 1 at the equator and prime
meridian at minute 722, which falls in the daylight band. -/
theorem computeAUT_normal_band_formulas_witness :
    (computeAUT 1 0 0 722).autHours
      = 12 * ((722 - (sunriseSunsetUTCMinutes 1 0 0).sunriseUTC) /
          ((sunriseSunsetUTCMinutes 1 0 0).sunsetUTC
            - (sunriseSunsetUTCMinutes 1 0 0).sunriseUTC)) := by
  obtain ⟨heq1, hr1lb, hr1ub, hs1lb, hs1ub⟩ := window_lat0 1 0
  obtain ⟨heq0, _, _, _, _⟩ := window_lat0 (1 - 1 : ℝ) 0
  obtain ⟨heq2, _, _, _, _⟩ := window_lat0 (1 + 1 : ℝ) 0
  have hnoon : solarNoonUTCMinutes 0 (solarParamsNOAA 1).EoT = 722.90416896 := by
    unfold solarNoonUTCMinutes
    rw [EoT_one]
    norm_num
  rw [hnoon] at hr1lb hr1ub hs1lb hs1ub
  exact ((computeAUT_normal_band_formulas 1 0 0 722 heq1 heq0 heq2).2.2.1
    (by linarith) (by linarith)).1

/-- C1 counterexample: at the valid non-polar location latitude 0 and
longitude 0, on day of year 1 at minute 100 of the UTC day (a pre-sunrise
moment), computeAUT returns negative autHours and negative progress: the
pre-sunrise ratio subtracts the sunset of yesterday expressed in the day
frame of yesterday, which exceeds tUTC by far.  The claim that progress
lies in [0,1] and autHours in [0,24) for every valid non-polar location
and every timestamp is therefore false. -/
theorem computeAUT_range_counterexample :
    (computeAUT 1 0 0 100).autHours < 0 ∧ (computeAUT 1 0 0 100).progress < 0 := by
  obtain ⟨heq1, hr1lb, hr1ub, hs1lb, hs1ub⟩ := window_lat0 1 0
  obtain ⟨heq0, _, _, hy0lb, hy0ub⟩ := window_lat0 (1 - 1 : ℝ) 0
  obtain ⟨heq2, _, _, _, _⟩ := window_lat0 (1 + 1 : ℝ) 0
  have hnoon : solarNoonUTCMinutes 0 (solarParamsNOAA 1).EoT = 722.90416896 := by
    unfold solarNoonUTCMinutes
    rw [EoT_one]
    norm_num
  have hEoT0 := abs_le.mp (abs_EoT_le (1 - 1 : ℝ))
  have hnoon0lb : (699.48:ℝ) ≤ solarNoonUTCMinutes 0 (solarParamsNOAA (1 - 1)).EoT := by
    unfold solarNoonUTCMinutes
    linarith [hEoT0.2]
  have hnoon0ub : solarNoonUTCMinutes 0 (solarParamsNOAA (1 - 1)).EoT ≤ 740.52 := by
    unfold solarNoonUTCMinutes
    linarith [hEoT0.1]
  rw [hnoon] at hr1lb hr1ub hs1lb hs1ub
  have hmT : (sunriseSunsetUTCMinutes 1 0 0).mode = "normal" := by rw [heq1]; rfl
  have hmY : (sunriseSunsetUTCMinutes (1 - 1) 0 0).mode = "normal" := by rw [heq0]; rfl
  have hmM : (sunriseSunsetUTCMinutes (1 + 1) 0 0).mode = "normal" := by rw [heq2]; rfl
  have hflow := computeAUT_eq_normalFlow 1 0 0 100 hmT hmY hmM
  have hb1 : (100:ℝ) < (sunriseSunsetUTCMinutes 1 0 0).sunriseUTC := by linarith
  have hb2 : (100:ℝ) < (sunriseSunsetUTCMinutes 1 0 0).sunsetUTC := by linarith
  rw [normalFlow_night3 hb1 hb2] at hflow
  set sy := (sunriseSunsetUTCMinutes (1 - 1) 0 0).sunsetUTC with hsydef
  set r := (sunriseSunsetUTCMinutes 1 0 0).sunriseUTC with hrdef
  have hsylb : (1062.8:ℝ) ≤ sy := by linarith
  have hsyub : sy ≤ 1108.23 := by linarith
  have hden : (0:ℝ) < r - sy + 1440 := by linarith
  have hnum : (100:ℝ) + 1440 - (sy + 1440) < 0 := by linarith
  have hfrac : ((100:ℝ) + 1440 - (sy + 1440)) / (r - sy + 1440) < -1 := by
    rw [div_lt_iff₀ hden]
    linarith
  have hfracneg : ((100:ℝ) + 1440 - (sy + 1440)) / (r - sy + 1440) < 0 :=
    div_neg_of_neg_of_pos hnum hden
  constructor
  · rw [hflow]
    show 12 + 12 * (((100:ℝ) + 1440 - (sy + 1440)) / (r - sy + 1440)) < 0
    nlinarith
  · rw [hflow]
    show ((100:ℝ) + 1440 - (sy + 1440)) / (r - sy + 1440) < 0
    exact hfracneg



/-- C1 (amended): on the all-normal path, for every timestamp from the
sunrise of today up to the end of the UTC day (sunrise <= tUTC < 1440) and
with the sunrise of tomorrow at a nonnegative minute offset, computeAUT
returns autHours in [0, 24) and progress in [0, 1].  The original claim
over all timestamps of the day fails in the pre-sunrise band, where the
ratio subtracts the sunset of yesterday expressed in the day frame of
yesterday and autHours and progress go negative (see the counterexample). -/
theorem computeAUT_range_amended (n lat lon t : ℝ)
    (hT : (sunriseSunsetUTCMinutes n lat lon).mode = "normal")
    (hY : (sunriseSunsetUTCMinutes (n - 1) lat lon).mode = "normal")
    (hM : (sunriseSunsetUTCMinutes (n + 1) lat lon).mode = "normal")
    (hsr : (sunriseSunsetUTCMinutes n lat lon).sunriseUTC ≤ t)
    (ht1 : t < 1440)
    (hTom : 0 ≤ (sunriseSunsetUTCMinutes (n + 1) lat lon).sunriseUTC) :
    0 ≤ (computeAUT n lat lon t).autHours ∧ (computeAUT n lat lon t).autHours < 24 ∧
    0 ≤ (computeAUT n lat lon t).progress ∧ (computeAUT n lat lon t).progress ≤ 1 := by
  have hflow := computeAUT_eq_normalFlow n lat lon t hT hY hM
  set r := (sunriseSunsetUTCMinutes n lat lon).sunriseUTC with hrdef
  set s := (sunriseSunsetUTCMinutes n lat lon).sunsetUTC with hsdef
  set rt := (sunriseSunsetUTCMinutes (n + 1) lat lon).sunriseUTC with hrtdef
  rcases lt_or_le t s with h2 | h2
  · rw [normalFlow_day hsr h2] at hflow
    have hds : (0:ℝ) < s - r := by linarith
    have hf0 : 0 ≤ (t - r) / (s - r) := div_nonneg (by linarith) (le_of_lt hds)
    have hf1 : (t - r) / (s - r) < 1 := by
      rw [div_lt_one hds]; linarith
    rw [hflow]
    refine ⟨?_, ?_, ?_, ?_⟩
    · show 0 ≤ 12 * ((t - r) / (s - r)); linarith
    · show 12 * ((t - r) / (s - r)) < 24; linarith
    · show 0 ≤ (t - r) / (s - r); linarith
    · show (t - r) / (s - r) ≤ 1; linarith
  · rw [normalFlow_night2 h2] at hflow
    have hden : (0:ℝ) < rt + 1440 - s := by linarith
    have hf0 : 0 ≤ (t - s) / (rt + 1440 - s) := div_nonneg (by linarith) (le_of_lt hden)
    have hf1 : (t - s) / (rt + 1440 - s) < 1 := by
      rw [div_lt_one hden]; linarith
    rw [hflow]
    refine ⟨?_, ?_, ?_, ?_⟩
    · show 0 ≤ 12 + 12 * ((t - s) / (rt + 1440 - s)); linarith
    · show 12 + 12 * ((t - s) / (rt + 1440 - s)) < 24; linarith
    · show 0 ≤ (t - s) / (rt + 1440 - s); linarith
    · show (t - s) / (rt + 1440 - s) ≤ 1; linarith

/-- C1 witness: the amended range theorem applied on day 1 at the equator
and prime meridian at minute 722 of the UTC day. -/
theorem computeAUT_range_amended_witness :
    0 ≤ (computeAUT 1 0 0 722).autHours ∧ (computeAUT 1 0 0 722).autHours < 24 ∧
    0 ≤ (computeAUT 1 0 0 722).progress ∧ (computeAUT 1 0 0 722).progress ≤ 1 := by
  obtain ⟨heq1, hr1lb, hr1ub, hs1lb, hs1ub⟩ := window_lat0 1 0
  obtain ⟨heq0, _, _, _, _⟩ := window_lat0 (1 - 1 : ℝ) 0
  obtain ⟨heq2, hr2lb, _, _, _⟩ := window_lat0 (1 + 1 : ℝ) 0
  have hnoon : solarNoonUTCMinutes 0 (solarParamsNOAA 1).EoT = 722.90416896 := by
    unfold solarNoonUTCMinutes
    rw [EoT_one]
    norm_num
  have hEoT2 := abs_le.mp (abs_EoT_le (1 + 1 : ℝ))
  have hnoon2lb : (699.48:ℝ) ≤ solarNoonUTCMinutes 0 (solarParamsNOAA (1 + 1)).EoT := by
    unfold solarNoonUTCMinutes
    linarith [hEoT2.2]
  exact computeAUT_range_amended 1 0 0 722
    (by rw [heq1]; rfl) (by rw [heq0]; rfl) (by rw [heq2]; rfl)
    (by rw [hnoon] at hr1ub; linarith) (by norm_num)
    (le_trans (by linarith only [hnoon2lb]) hr2lb)

/-- C3 (amended): within the pre-sunrise night band, autHours returned by
computeAUT is non-decreasing as the timestamp advances; the concrete
Charlotte instance of the claim (latitude 35.25, longitude -80.8, local
23:50 and 00:10 the next local day, both pre-sunrise in UTC terms) is the
witness.  The original claim fails in two respects: autHours is not
non-decreasing through a whole local calendar day (it drops at the UTC day
rollover during the night, see the counterexample), and the pre-sunrise
values are not confined to the [12, 24) night band. -/
theorem computeAUT_presunrise_monotone (n lat lon u v : ℝ)
    (hT : (sunriseSunsetUTCMinutes n lat lon).mode = "normal")
    (hY : (sunriseSunsetUTCMinutes (n - 1) lat lon).mode = "normal")
    (hM : (sunriseSunsetUTCMinutes (n + 1) lat lon).mode = "normal")
    (huv : u ≤ v)
    (hv : v < (sunriseSunsetUTCMinutes n lat lon).sunriseUTC)
    (hnl : (sunriseSunsetUTCMinutes (n - 1) lat lon).sunsetUTC
        < (sunriseSunsetUTCMinutes n lat lon).sunriseUTC + 1440) :
    (computeAUT n lat lon u).autHours ≤ (computeAUT n lat lon v).autHours := by
  have hrs := sunrise_le_sunset_of_mode n lat lon hT
  have hflow1 := computeAUT_eq_normalFlow n lat lon u hT hY hM
  have hflow2 := computeAUT_eq_normalFlow n lat lon v hT hY hM
  set r := (sunriseSunsetUTCMinutes n lat lon).sunriseUTC with hrdef
  set s := (sunriseSunsetUTCMinutes n lat lon).sunsetUTC with hsdef
  set sy := (sunriseSunsetUTCMinutes (n - 1) lat lon).sunsetUTC with hsydef
  have hu1 : u < r := lt_of_le_of_lt huv hv
  have hu2 : u < s := lt_of_lt_of_le hu1 hrs
  have hv2 : v < s := lt_of_lt_of_le hv hrs
  rw [normalFlow_night3 hu1 hu2] at hflow1
  rw [normalFlow_night3 hv hv2] at hflow2
  rw [hflow1, hflow2]
  show 12 + 12 * ((u + 1440 - (sy + 1440)) / (r - sy + 1440))
      ≤ 12 + 12 * ((v + 1440 - (sy + 1440)) / (r - sy + 1440))
  have hden : (0:ℝ) < r - sy + 1440 := by linarith
  have hmono : (u + 1440 - (sy + 1440)) / (r - sy + 1440)
      ≤ (v + 1440 - (sy + 1440)) / (r - sy + 1440) := by
    exact div_le_div_of_nonneg_right (by linarith) hden.le
  linarith

/-- C3 witness: the pre-sunrise monotonicity applied to the Charlotte
instance, latitude 35.25 and longitude -80.8 on day 1, at UTC minutes 290
and 310 of the same UTC day, which are local 23:50 and 00:10 across the
local midnight. -/
theorem computeAUT_presunrise_monotone_witness :
    (computeAUT 1 35.25 (-80.8) 290).autHours
      ≤ (computeAUT 1 35.25 (-80.8) 310).autHours := by
  obtain ⟨hm1, hno1, hr1lb, hr1ub, hs1lb, hs1ub⟩ :=
    window_3525 (n := 1) (-80.8) (by norm_num)
  obtain ⟨hm0, hno0, hr0lb, hr0ub, hs0lb, hs0ub⟩ :=
    window_3525 (n := (1:ℝ) - 1) (-80.8) (by norm_num)
  obtain ⟨hm2, _, _, _, _, _⟩ := window_3525 (n := (1:ℝ) + 1) (-80.8) (by norm_num)
  have hnoon1 : solarNoonUTCMinutes (-80.8) (solarParamsNOAA 1).EoT = 1046.10416896 := by
    unfold solarNoonUTCMinutes
    rw [EoT_one]
    norm_num
  have hEoT0 := abs_le.mp (abs_EoT_le (1 - 1 : ℝ))
  have hnoon0ub : solarNoonUTCMinutes (-80.8) (solarParamsNOAA (1 - 1)).EoT ≤ 1063.72 := by
    unfold solarNoonUTCMinutes
    linarith [hEoT0.1]
  apply computeAUT_presunrise_monotone 1 35.25 (-80.8) 290 310 hm1 hm0 hm2 (by norm_num)
  · rw [hnoon1] at hr1lb
    linarith
  · rw [hnoon1] at hr1lb
    linarith

set_option maxHeartbeats 1600000 in
/-- C3 counterexample: at latitude 35.25 and longitude -80.8 the local
calendar day contains the UTC day rollover (local 19:00 is UTC midnight);
at UTC minute 1439 of day 1 (local 18:59) computeAUT returns an autHours of
at least 12, while one minute later, at UTC minute 0 of day 2 (local
19:00, the same local calendar day), it returns an autHours below 12: the
wall clock advanced and autHours decreased, so autHours is not
non-decreasing through a single local calendar day. -/
theorem computeAUT_monotone_counterexample :
    (computeAUT 2 35.25 (-80.8) 0).autHours
        < (computeAUT 1 35.25 (-80.8) 1439).autHours ∧
    12 ≤ (computeAUT 1 35.25 (-80.8) 1439).autHours ∧
    (computeAUT 2 35.25 (-80.8) 0).autHours < 12 := by
  have h21 : (2:ℝ) - 1 = 1 := by norm_num
  obtain ⟨hm1, hno1, hr1lb, hr1ub, hs1lb, hs1ub⟩ :=
    window_3525 (n := 1) (-80.8) (by norm_num)
  obtain ⟨hm0, _, _, _, _, _⟩ := window_3525 (n := (1:ℝ) - 1) (-80.8) (by norm_num)
  obtain ⟨hm2, hno2, hr2lb, hr2ub, hs2lb, hs2ub⟩ :=
    window_3525 (n := (1:ℝ) + 1) (-80.8) (by norm_num)
  obtain ⟨hm2p, hno2p, hr2lbp, hr2ubp, hs2lbp, hs2ubp⟩ :=
    window_3525 (n := 2) (-80.8) (by norm_num)
  obtain ⟨hx3a, hx3b⟩ := hourAngle_3525_le ((2:ℝ) + 1)
  have heq3 := sSS_eq_normal ((2:ℝ) + 1) 35.25 (-80.8) hx3a hx3b
  have hm3 : (sunriseSunsetUTCMinutes ((2:ℝ) + 1) 35.25 (-80.8)).mode = "normal" := by
    rw [heq3]; rfl
  have hm1b : (sunriseSunsetUTCMinutes ((2:ℝ) - 1) 35.25 (-80.8)).mode = "normal" := by
    rw [h21]; exact hm1
  have hflowA := computeAUT_eq_normalFlow 1 35.25 (-80.8) 1439 hm1 hm0 hm2
  have hflowB := computeAUT_eq_normalFlow 2 35.25 (-80.8) 0 hm2p hm1b hm3
  rw [h21] at hflowB
  have hnoon1 : solarNoonUTCMinutes (-80.8) (solarParamsNOAA 1).EoT = 1046.10416896 := by
    unfold solarNoonUTCMinutes
    rw [EoT_one]
    norm_num
  have hEoT2 := abs_le.mp (abs_EoT_le ((1:ℝ) + 1))
  have hEoT2p := abs_le.mp (abs_EoT_le (2:ℝ))
  set nn2 := solarNoonUTCMinutes (-80.8) (solarParamsNOAA ((1:ℝ) + 1)).EoT with hn2def
  set nn2p := solarNoonUTCMinutes (-80.8) (solarParamsNOAA (2:ℝ)).EoT with hn2pdef
  set sA := (sunriseSunsetUTCMinutes 1 35.25 (-80.8)).sunsetUTC with hsAdef
  set rA := (sunriseSunsetUTCMinutes ((1:ℝ) + 1) 35.25 (-80.8)).sunriseUTC with hrAdef
  set rB := (sunriseSunsetUTCMinutes 2 35.25 (-80.8)).sunriseUTC with hrBdef
  set sB := (sunriseSunsetUTCMinutes 2 35.25 (-80.8)).sunsetUTC with hsBdef
  have hnn2 : (1022.68:ℝ) ≤ nn2 ∧ nn2 ≤ 1063.72 := by
    rw [hn2def]
    unfold solarNoonUTCMinutes
    constructor
    · linarith [hEoT2.2]
    · linarith [hEoT2.1]
  have hnn2p : (1022.68:ℝ) ≤ nn2p ∧ nn2p ≤ 1063.72 := by
    rw [hn2pdef]
    unfold solarNoonUTCMinutes
    constructor
    · linarith [hEoT2p.2]
    · linarith [hEoT2p.1]
  rw [hnoon1] at hr1lb hr1ub hs1lb hs1ub
  have hbs : sA ≤ 1439 := by linarith [hs1ub]
  rw [normalFlow_night2 hbs] at hflowA
  have hb1 : (0:ℝ) < rB := by linarith [hr2lbp, hnn2p.1]
  have hb2 : (0:ℝ) < sB := by linarith [hs2lbp, hnn2p.1]
  rw [normalFlow_night3 hb1 hb2] at hflowB
  have hrAlb : (662.68:ℝ) ≤ rA := by linarith [hr2lb, hnn2.1]
  have hfracA : 0 ≤ (1439 - sA) / (rA + 1440 - sA) := by
    apply div_nonneg
    · linarith [hs1ub]
    · linarith [hs1ub, hrAlb]
  have hA12 : 12 ≤ (computeAUT 1 35.25 (-80.8) 1439).autHours := by
    rw [hflowA]
    show 12 ≤ 12 + 12 * ((1439 - sA) / (rA + 1440 - sA))
    linarith [hfracA]
  have hdenB : (0:ℝ) < rB - sA + 1440 := by linarith [hb1, hs1ub]
  have hnumB : (0:ℝ) + 1440 - (sA + 1440) < 0 := by linarith [hs1lb]
  have hB12 : (computeAUT 2 35.25 (-80.8) 0).autHours < 12 := by
    rw [hflowB]
    show 12 + 12 * (((0:ℝ) + 1440 - (sA + 1440)) / (rB - sA + 1440)) < 12
    have hneg := div_neg_of_neg_of_pos hnumB hdenB
    linarith [hneg]
  exact ⟨by linarith [hA12, hB12], hA12, hB12⟩




/-- C4 counterexample: the claim states the solver computes the hour angle
cosine x with sin of minus 0.8333 degrees, but the source defines alpha =
0.833 at line 243; at latitude 0 on day 1 the value of the formula as the
claim words it differs from the x the code computes, so the claim is false
as written. -/
theorem sunWindowSolver_alpha_counterexample :
    hourAngleCosineClaim 0 (solarParamsNOAA 1).declDeg ≠
      hourAngleCosine 0 (solarParamsNOAA 1).declDeg := by
  obtain ⟨hc1, hc2⟩ := cos_decl_bounds 1
  have hcpos : 0 < Real.cos ((solarParamsNOAA 1).declDeg * DEG) := by linarith
  have hpi1 : (3.1415:ℝ) < Real.pi := Real.pi_gt_d4
  have hpi2 : Real.pi < 3.1416 := Real.pi_lt_d4
  have hDEG : DEG = Real.pi / 180 := rfl
  have hlt : Real.sin (0.833 * DEG) < Real.sin (0.8333 * DEG) := by
    apply Real.sin_lt_sin_of_lt_of_le_pi_div_two
    · rw [hDEG]; nlinarith
    · rw [hDEG]; nlinarith
    · rw [hDEG]; nlinarith
  have hclaim : hourAngleCosineClaim 0 (solarParamsNOAA 1).declDeg
      = -Real.sin (0.8333 * DEG) / Real.cos ((solarParamsNOAA 1).declDeg * DEG) := by
    unfold hourAngleCosineClaim
    rw [neg_mul, Real.sin_neg, zero_mul, Real.sin_zero, Real.cos_zero, zero_mul, sub_zero, one_mul]
  have hcode : hourAngleCosine 0 (solarParamsNOAA 1).declDeg
      = -Real.sin (0.833 * DEG) / Real.cos ((solarParamsNOAA 1).declDeg * DEG) := by
    unfold hourAngleCosine
    rw [neg_mul, Real.sin_neg, zero_mul, Real.sin_zero, Real.cos_zero, zero_mul, sub_zero, one_mul]
  rw [hclaim, hcode]
  intro heq
  rw [div_eq_div_iff (ne_of_gt hcpos) (ne_of_gt hcpos)] at heq
  nlinarith [heq, hlt, hcpos]

/-- C4 (amended): the sun window solver computes the hour angle cosine x
from the minus 0.833 degree upper limb correction, the constant the source
actually defines (the claim says minus 0.8333 degrees; see the
counterexample), and classifies on the unclamped x: x > 1 gives polar
night, x < -1 gives polar day, and otherwise the window is normal with h0
the arccos of the clamp of x converted to degrees, sunrise = noon - 4 h0
and sunset = noon + 4 h0. -/
theorem sunWindowSolver_classification (n lat lon : ℝ) :
    (1 < hourAngleCosine lat (solarParamsNOAA n).declDeg →
      sunriseSunsetUTCMinutes n lat lon =
        .polar_night (solarNoonUTCMinutes lon (solarParamsNOAA n).EoT)
          (solarParamsNOAA n).EoT (solarParamsNOAA n).declDeg) ∧
    (hourAngleCosine lat (solarParamsNOAA n).declDeg < -1 →
      sunriseSunsetUTCMinutes n lat lon =
        .polar_day (solarNoonUTCMinutes lon (solarParamsNOAA n).EoT)
          (solarParamsNOAA n).EoT (solarParamsNOAA n).declDeg) ∧
    (-1 ≤ hourAngleCosine lat (solarParamsNOAA n).declDeg →
      hourAngleCosine lat (solarParamsNOAA n).declDeg ≤ 1 →
      sunriseSunsetUTCMinutes n lat lon =
        .normal
          (solarNoonUTCMinutes lon (solarParamsNOAA n).EoT
            - 4 * (Real.arccos (min 1 (max (-1)
                (hourAngleCosine lat (solarParamsNOAA n).declDeg))) * RAD))
          (solarNoonUTCMinutes lon (solarParamsNOAA n).EoT
            + 4 * (Real.arccos (min 1 (max (-1)
                (hourAngleCosine lat (solarParamsNOAA n).declDeg))) * RAD))
          (solarNoonUTCMinutes lon (solarParamsNOAA n).EoT)
          (solarParamsNOAA n).EoT (solarParamsNOAA n).declDeg) := by
  refine ⟨sSS_eq_polar_night n lat lon, sSS_eq_polar_day n lat lon, ?_⟩
  intro hm h1
  simp only [sunriseSunsetUTCMinutes]
  rw [if_neg (not_lt.mpr h1), if_neg (not_lt.mpr hm)]

/-- C4 witness: the classification applied at latitude 89.9 on day 1,
where the hour angle cosine exceeds 1 and the window is polar night. -/
theorem sunWindowSolver_classification_witness :
    1 < hourAngleCosine 89.9 (solarParamsNOAA 1).declDeg ∧
    sunriseSunsetUTCMinutes 1 89.9 0 =
      .polar_night (solarNoonUTCMinutes 0 (solarParamsNOAA 1).EoT)
        (solarParamsNOAA 1).EoT (solarParamsNOAA 1).declDeg :=
  ⟨hourAngle_899_gt_one,
    (sunWindowSolver_classification 1 89.9 0).1 hourAngle_899_gt_one⟩

lemma equilux_day {t lon e no : ℝ} (h1 : 360 ≤ apparentSolarMinutesUTC t lon e)
    (h2 : apparentSolarMinutesUTC t lon e < 1080) :
    computeAUTEquilux t lon e no =
      { autHours := 12 * ((apparentSolarMinutesUTC t lon e - 360) / 720)
        sunriseLocalMin := utcMinutesToLocalMin (no - 360) 0
        sunsetLocalMin := utcMinutesToLocalMin (no + 360) 0
        nextSunriseLocalMin := utcMinutesToLocalMin (no - 360) 1
        segmentLabel := "Daylight (Lux, Equilux)"
        progress := (apparentSolarMinutesUTC t lon e - 360) / 720
        segLenMin := 720
        dayLenMin := 720
        nightLenMin := 720
        mode := "equilux"
        noonUTC := none } := by
  unfold computeAUTEquilux
  rw [if_pos ⟨h1, h2⟩]

lemma equilux_night_late {t lon e no : ℝ} (h : 1080 ≤ apparentSolarMinutesUTC t lon e) :
    computeAUTEquilux t lon e no =
      { autHours := 12 + 12 * ((apparentSolarMinutesUTC t lon e - 1080) / 720)
        sunriseLocalMin := utcMinutesToLocalMin (no - 360) 0
        sunsetLocalMin := utcMinutesToLocalMin (no + 360) 0
        nextSunriseLocalMin := utcMinutesToLocalMin (no - 360) 1
        segmentLabel := "Night (Umbra, Equilux)"
        progress := (apparentSolarMinutesUTC t lon e - 1080) / 720
        segLenMin := 720
        dayLenMin := 720
        nightLenMin := 720
        mode := "equilux"
        noonUTC := none } := by
  unfold computeAUTEquilux
  rw [if_neg (by rintro ⟨_, hb⟩; linarith), if_pos h]

lemma equilux_night_early {t lon e no : ℝ} (h : apparentSolarMinutesUTC t lon e < 360) :
    computeAUTEquilux t lon e no =
      { autHours := 12 + 12 * ((apparentSolarMinutesUTC t lon e + (1440 - 1080)) / 720)
        sunriseLocalMin := utcMinutesToLocalMin (no - 360) 0
        sunsetLocalMin := utcMinutesToLocalMin (no + 360) 0
        nextSunriseLocalMin := utcMinutesToLocalMin (no - 360) 1
        segmentLabel := "Night (Umbra, Equilux)"
        progress := (apparentSolarMinutesUTC t lon e + (1440 - 1080)) / 720
        segLenMin := 720
        dayLenMin := 720
        nightLenMin := 720
        mode := "equilux"
        noonUTC := none } := by
  unfold computeAUTEquilux
  rw [if_neg (by rintro ⟨ha, _⟩; linarith), if_neg (not_le.mpr (by linarith))]

lemma equilux_const_fields (t lon e no : ℝ) :
    (computeAUTEquilux t lon e no).mode = "equilux" ∧
    (computeAUTEquilux t lon e no).dayLenMin = 720 ∧
    (computeAUTEquilux t lon e no).nightLenMin = 720 ∧
    (computeAUTEquilux t lon e no).segLenMin = 720 := by
  simp only [computeAUTEquilux]
  split_ifs <;> exact ⟨rfl, rfl, rfl, rfl⟩

/-- C5: whenever the window of today is polar (either kind), or it is
normal and the window of yesterday or tomorrow is non-normal, computeAUT
delegates to the equilux mapper with the EoT and noon of today; the
equilux result carries the equilux tag and day and night lengths of 720
minutes always, maps apparent solar 06:00 - 18:00 linearly to autHours
0 - 12, and maps the remaining half linearly to autHours 12 - 24. -/
theorem computeAUT_equilux_dispatch (n lat lon t : ℝ)
    (h : ((sunriseSunsetUTCMinutes n lat lon).mode = "polar_day" ∨
          (sunriseSunsetUTCMinutes n lat lon).mode = "polar_night") ∨
         ((sunriseSunsetUTCMinutes n lat lon).mode = "normal" ∧
           ((sunriseSunsetUTCMinutes (n - 1) lat lon).mode ≠ "normal" ∨
            (sunriseSunsetUTCMinutes (n + 1) lat lon).mode ≠ "normal"))) :
    computeAUT n lat lon t =
      computeAUTEquilux t lon (sunriseSunsetUTCMinutes n lat lon).EoT
        (sunriseSunsetUTCMinutes n lat lon).noonUTC ∧
    (computeAUT n lat lon t).mode = "equilux" ∧
    (computeAUT n lat lon t).dayLenMin = 720 ∧
    (computeAUT n lat lon t).nightLenMin = 720 ∧
    (360 ≤ apparentSolarMinutesUTC t lon (sunriseSunsetUTCMinutes n lat lon).EoT →
      apparentSolarMinutesUTC t lon (sunriseSunsetUTCMinutes n lat lon).EoT < 1080 →
      (computeAUT n lat lon t).autHours
        = 12 * ((apparentSolarMinutesUTC t lon (sunriseSunsetUTCMinutes n lat lon).EoT
            - 360) / 720)) ∧
    (1080 ≤ apparentSolarMinutesUTC t lon (sunriseSunsetUTCMinutes n lat lon).EoT →
      (computeAUT n lat lon t).autHours
        = 12 + 12 * ((apparentSolarMinutesUTC t lon (sunriseSunsetUTCMinutes n lat lon).EoT
            - 1080) / 720)) ∧
    (apparentSolarMinutesUTC t lon (sunriseSunsetUTCMinutes n lat lon).EoT < 360 →
      (computeAUT n lat lon t).autHours
        = 12 + 12 * ((apparentSolarMinutesUTC t lon (sunriseSunsetUTCMinutes n lat lon).EoT
            + (1440 - 1080)) / 720)) := by
  have hdispatch : computeAUT n lat lon t =
      computeAUTEquilux t lon (sunriseSunsetUTCMinutes n lat lon).EoT
        (sunriseSunsetUTCMinutes n lat lon).noonUTC := by
    rcases h with hpolar | ⟨hnorm, hadj⟩
    · exact computeAUT_eq_equilux_polar n lat lon t hpolar
    · exact computeAUT_eq_equilux_adjacent n lat lon t hnorm hadj
  obtain ⟨hcm, hcd, hcn, _⟩ := equilux_const_fields t lon
    (sunriseSunsetUTCMinutes n lat lon).EoT (sunriseSunsetUTCMinutes n lat lon).noonUTC
  refine ⟨hdispatch, ?_, ?_, ?_, ?_, ?_, ?_⟩
  · rw [hdispatch]; exact hcm
  · rw [hdispatch]; exact hcd
  · rw [hdispatch]; exact hcn
  · intro h1 h2
    rw [hdispatch, equilux_day h1 h2]
  · intro h1
    rw [hdispatch, equilux_night_late h1]
  · intro h1
    rw [hdispatch, equilux_night_early h1]

/-- C5 witness: the dispatch applied at latitude 89.9 on day 1, a polar
night day, at minute 0. -/
theorem computeAUT_equilux_dispatch_witness :
    computeAUT 1 89.9 0 0 =
      computeAUTEquilux 0 0 (sunriseSunsetUTCMinutes 1 89.9 0).EoT
        (sunriseSunsetUTCMinutes 1 89.9 0).noonUTC ∧
    (computeAUT 1 89.9 0 0).dayLenMin = 720 ∧
    (computeAUT 1 89.9 0 0).nightLenMin = 720 := by
  have h := computeAUT_equilux_dispatch 1 89.9 0 0
    (Or.inl (Or.inr (by rw [window_899 0]; rfl)))
  exact ⟨h.1, h.2.2.1, h.2.2.2.1⟩



/-! ## Range of the JavaScript remainder and the equilux mapper -/

lemma jsRem_bounds {a b : ℝ} (hb : 0 < b) : -b < jsRem a b ∧ jsRem a b < b := by
  have hbne : b ≠ 0 := ne_of_gt hb
  have ha : a = a / b * b := (div_mul_cancel₀ a hbne).symm
  unfold jsRem rtrunc
  split_ifs with hq
  · have h1 := Int.floor_le (a / b)
    have h2 := Int.lt_floor_add_one (a / b)
    constructor <;> nlinarith
  · have h1 := Int.le_ceil (a / b)
    have h2 := Int.ceil_lt_add_one (a / b)
    constructor <;> nlinarith

lemma jsRem_nonneg {a b : ℝ} (hb : 0 < b) (ha : 0 ≤ a) : 0 ≤ jsRem a b := by
  have hbne : b ≠ 0 := ne_of_gt hb
  have haq : a = a / b * b := (div_mul_cancel₀ a hbne).symm
  have hq : 0 ≤ a / b := div_nonneg ha (le_of_lt hb)
  unfold jsRem rtrunc
  rw [if_pos hq]
  have h1 := Int.floor_le (a / b)
  nlinarith

lemma apparentSolar_bounds (t lon e : ℝ) :
    0 ≤ apparentSolarMinutesUTC t lon e ∧ apparentSolarMinutesUTC t lon e < 1440 := by
  unfold apparentSolarMinutesUTC
  obtain ⟨hi1, hi2⟩ := jsRem_bounds (a := t + 4 * lon + e) (b := 1440) (by norm_num)
  have houter := jsRem_bounds (a := jsRem (t + 4 * lon + e) 1440 + 1440) (b := 1440) (by norm_num)
  have hnn := jsRem_nonneg (a := jsRem (t + 4 * lon + e) 1440 + 1440) (b := 1440)
    (by norm_num) (by linarith)
  exact ⟨hnn, houter.2⟩

/-- C10: for every input for which the apparent solar minutes are defined
(every real input in this embedding), the equilux mapper returns autHours
in [0, 24) and progress in [0, 1), with the daylight half landing in
[0, 12) and the night half in [12, 24), and segment, day and night length
fields all equal to 720. -/
theorem computeAUTEquilux_range (t lon e no : ℝ) :
    0 ≤ (computeAUTEquilux t lon e no).autHours ∧
    (computeAUTEquilux t lon e no).autHours < 24 ∧
    0 ≤ (computeAUTEquilux t lon e no).progress ∧
    (computeAUTEquilux t lon e no).progress < 1 ∧
    (360 ≤ apparentSolarMinutesUTC t lon e → apparentSolarMinutesUTC t lon e < 1080 →
      (computeAUTEquilux t lon e no).autHours < 12) ∧
    (¬(360 ≤ apparentSolarMinutesUTC t lon e ∧ apparentSolarMinutesUTC t lon e < 1080) →
      12 ≤ (computeAUTEquilux t lon e no).autHours) ∧
    (computeAUTEquilux t lon e no).segLenMin = 720 ∧
    (computeAUTEquilux t lon e no).dayLenMin = 720 ∧
    (computeAUTEquilux t lon e no).nightLenMin = 720 := by
  obtain ⟨hast0, hast1⟩ := apparentSolar_bounds t lon e
  obtain ⟨hcm, hcd, hcn, hcs⟩ := equilux_const_fields t lon e no
  set ast := apparentSolarMinutesUTC t lon e with hastdef
  rcases lt_or_le ast 360 with hearly | h360
  · rw [equilux_night_early hearly]
    have hf0 : (0.5:ℝ) ≤ (ast + (1440 - 1080)) / 720 := by
      rw [le_div_iff₀ (by norm_num : (0:ℝ) < 720)]; linarith
    have hf1 : (ast + (1440 - 1080)) / 720 < 1 := by
      rw [div_lt_one (by norm_num : (0:ℝ) < 720)]; linarith
    refine ⟨by linarith, by linarith, by linarith, hf1, ?_, ?_, rfl, rfl, rfl⟩
    · intro h1 _; linarith
    · intro _; show (12:ℝ) ≤ 12 + 12 * ((ast + (1440 - 1080)) / 720); linarith
  · rcases lt_or_le ast 1080 with hday | hlate
    · rw [equilux_day h360 hday]
      have hf0 : (0:ℝ) ≤ (ast - 360) / 720 := div_nonneg (by linarith) (by norm_num)
      have hf1 : (ast - 360) / 720 < 1 := by
        rw [div_lt_one (by norm_num : (0:ℝ) < 720)]; linarith
      refine ⟨by linarith, by linarith, hf0, hf1, ?_, ?_, rfl, rfl, rfl⟩
      · intro _ _; show 12 * ((ast - 360) / 720) < 12; linarith
      · intro hcon; exact absurd ⟨h360, hday⟩ hcon
    · rw [equilux_night_late hlate]
      have hf0 : (0:ℝ) ≤ (ast - 1080) / 720 := div_nonneg (by linarith) (by norm_num)
      have hf1 : (ast - 1080) / 720 < 0.5 := by
        rw [div_lt_iff₀ (by norm_num : (0:ℝ) < 720)]; linarith
      refine ⟨by linarith, by linarith, hf0, by linarith, ?_, ?_, rfl, rfl, rfl⟩
      · intro _ h2; linarith
      · intro _; show (12:ℝ) ≤ 12 + 12 * ((ast - 1080) / 720); linarith

/-- C10 witness: the equilux range theorem applied at timestamp 0,
longitude 0, equation of time 0 and noon 720. -/
theorem computeAUTEquilux_range_witness :
    0 ≤ (computeAUTEquilux 0 0 0 720).autHours ∧
    (computeAUTEquilux 0 0 0 720).autHours < 24 ∧
    (computeAUTEquilux 0 0 0 720).dayLenMin = 720 ∧
    (computeAUTEquilux 0 0 0 720).nightLenMin = 720 := by
  have h := computeAUTEquilux_range 0 0 0 720
  exact ⟨h.1, h.2.1, h.2.2.2.2.2.2.2.1, h.2.2.2.2.2.2.2.2⟩

/-- C7: the solar parameter model computes the fractional year angle
gamma = 2 pi (n - 1) / 365, the declination as the arcsin of the fixed
seven-term Fourier series in gamma converted to degrees, and the equation
of time as the fixed five-term Fourier series in gamma scaled by 229.18;
solar noon in UTC minutes is 720 - 4 lonDeg - eotMinutes. -/
theorem solarParams_formulas (n lon E g : ℝ) :
    (solarParamsNOAA n).declDeg
        = Real.arcsin (declSeries (2 * Real.pi * (n - 1) / 365)) * RAD ∧
    (solarParamsNOAA n).EoT = 229.18 * eotSeries (2 * Real.pi * (n - 1) / 365) ∧
    declSeries g = 0.006918 - 0.399912 * Real.cos g + 0.070257 * Real.sin g -
      0.006758 * Real.cos (2 * g) + 0.000907 * Real.sin (2 * g) -
      0.002697 * Real.cos (3 * g) + 0.00148 * Real.sin (3 * g) ∧
    eotSeries g = 0.000075 + 0.001868 * Real.cos g - 0.032077 * Real.sin g -
      0.014615 * Real.cos (2 * g) - 0.040849 * Real.sin (2 * g) ∧
    solarNoonUTCMinutes lon E = 720 - 4 * lon - E :=
  ⟨rfl, rfl, rfl, rfl, rfl⟩

/-- C8: the fractional year angle at n + 365 is the angle at n plus one
full turn, so solarParams at n and n + 365 agree exactly; in particular
the declinations differ by less than 0.01 degrees and the equations of
time by less than 0.1 minutes, for every real day number n. -/
theorem solarParams_annual_periodicity (n : ℝ) :
    |(solarParamsNOAA (n + 365)).declDeg - (solarParamsNOAA n).declDeg| < 0.01 ∧
    |(solarParamsNOAA (n + 365)).EoT - (solarParamsNOAA n).EoT| < 0.1 := by
  have hg : 2 * Real.pi * ((n + 365) - 1) / 365 = 2 * Real.pi * (n - 1) / 365 + 2 * Real.pi := by
    field_simp
    ring
  set g := 2 * Real.pi * (n - 1) / 365 with hgdef
  have hdecl : declSeries (2 * Real.pi * ((n + 365) - 1) / 365) = declSeries g := by
    rw [hg]
    unfold declSeries
    rw [show 2 * (g + 2 * Real.pi) = 2 * g + 2 * Real.pi + 2 * Real.pi from by ring,
        show 3 * (g + 2 * Real.pi) = 3 * g + 2 * Real.pi + 2 * Real.pi + 2 * Real.pi from by ring]
    simp only [Real.cos_add_two_pi, Real.sin_add_two_pi]
  have heot : eotSeries (2 * Real.pi * ((n + 365) - 1) / 365) = eotSeries g := by
    rw [hg]
    unfold eotSeries
    rw [show 2 * (g + 2 * Real.pi) = 2 * g + 2 * Real.pi + 2 * Real.pi from by ring]
    simp only [Real.cos_add_two_pi, Real.sin_add_two_pi]
  have hd : (solarParamsNOAA (n + 365)).declDeg = (solarParamsNOAA n).declDeg := by
    show Real.arcsin (declSeries (2 * Real.pi * ((n + 365) - 1) / 365)) * RAD
        = Real.arcsin (declSeries (2 * Real.pi * (n - 1) / 365)) * RAD
    rw [hdecl]
  have he : (solarParamsNOAA (n + 365)).EoT = (solarParamsNOAA n).EoT := by
    show 229.18 * eotSeries (2 * Real.pi * ((n + 365) - 1) / 365)
        = 229.18 * eotSeries (2 * Real.pi * (n - 1) / 365)
    rw [heot]
  rw [hd, he, sub_self, abs_zero]
  norm_num


end AUT
